import Mathlib

/-!
Shallow embedding of the emulator core of the `emu` repository, together with
proofs that settle the frozen claims about its specification.

The embedding follows the source files:

* `src/components/cpu.rs` — the W65C02S micro-sequenced CPU (state machine,
  decoder, and the full `cycle()` interpreter);
* `src/system/cpu_test_system.rs` — the CPU-test harness bus (RAM backing the
  entire 16-bit address space, reset vector patched);
* `src/component/mos6522.rs` and `src/components/periph.rs` — the peripheral
  adapters (interrupt flag/enable registers, timer 1);
* `src/system/breadboard_system.rs` — the address-decoded system bus;
* `src/component/snes_controller.rs` — the latching shift-register controller;
* `src/components/display.rs` — the HD44780U LCD controller.

Machine integers are embedded as `Nat` with explicit reduction: `u8`/`u16`
values read from the bus are taken modulo 256, wrapping arithmetic
(`wrapping_add`, `wrapping_sub`, shifts on `u8`) is written with explicit
`% 256` / `% 65536`, and plain (non-wrapping) `+` on machine integers is
modelled modulo the type width except for the one place the claims single
out: the zero-page pointer high-byte fetch computes `temp8 + 1` as a
**checked** 8-bit addition, so `cycle` returns an error value exactly where
that addition overflows (as well as where the source itself calls
`panic!`/`unimplemented!`).
-/

namespace Emu

/-- Address modes of the W65C02S (`AddressMode` in `components/cpu.rs`). -/
inductive AddressMode where
  | Absolute
  | AbsoluteIndexedIndirect
  | AbsoluteIndexedWithX
  | AbsoluteIndexedWithY
  | AbsoluteIndirect
  | Accumulator
  | ImmediateAddressing
  | Implied
  | ProgramCounterRelative
  | Stack
  | ZeroPage
  | ZeroPageIndexedIndirect
  | ZeroPageIndexedWithX
  | ZeroPageIndexedWithY
  | ZeroPageIndirect
  | ZeroPageIndirectIndexedWithY
deriving DecidableEq, Repr

/-- Instructions of the W65C02S (`Instruction` in `components/cpu.rs`).
`NOP bytes cycles` carries the declared byte length and cycle count of the
recognized (including undefined) NOP opcodes. -/
inductive Instruction where
  | ADC | AND | ASL
  | BBR (n : Nat) | BBS (n : Nat)
  | BCC | BCS | BEQ | BIT | BMI | BNE | BPL | BRA | BRK | BVC | BVS
  | CLC | CLD | CLI | CLV | CMP | CPX | CPY
  | DEC | DEX | DEY | EOR | INC | INX | INY
  | JMP | JSR | LDA | LDX | LDY | LSR
  | NOP (bytes : Nat) (cycles : Nat)
  | ORA | PHA | PHP | PHX | PHY | PLA | PLP | PLX | PLY
  | RMB (n : Nat) | ROL | ROR | RTI | RTS
  | SBC | SEC | SED | SEI
  | SMB (n : Nat)
  | STA | STP | STX | STY | STZ
  | TAX | TAY | TRB | TSB | TSX | TXA | TXS | TYA | WAI
deriving Repr

/-- Equality test on instructions (the derived `PartialEq` of the source).
Spelled out by hand because the automatic `DecidableEq` derivation does not
scale to this many constructors. -/
instance : BEq Instruction where
  beq a b :=
    match a, b with
    | .ADC, .ADC => true
    | .AND, .AND => true
    | .ASL, .ASL => true
    | .BBR n, .BBR m => n == m
    | .BBS n, .BBS m => n == m
    | .BCC, .BCC => true
    | .BCS, .BCS => true
    | .BEQ, .BEQ => true
    | .BIT, .BIT => true
    | .BMI, .BMI => true
    | .BNE, .BNE => true
    | .BPL, .BPL => true
    | .BRA, .BRA => true
    | .BRK, .BRK => true
    | .BVC, .BVC => true
    | .BVS, .BVS => true
    | .CLC, .CLC => true
    | .CLD, .CLD => true
    | .CLI, .CLI => true
    | .CLV, .CLV => true
    | .CMP, .CMP => true
    | .CPX, .CPX => true
    | .CPY, .CPY => true
    | .DEC, .DEC => true
    | .DEX, .DEX => true
    | .DEY, .DEY => true
    | .EOR, .EOR => true
    | .INC, .INC => true
    | .INX, .INX => true
    | .INY, .INY => true
    | .JMP, .JMP => true
    | .JSR, .JSR => true
    | .LDA, .LDA => true
    | .LDX, .LDX => true
    | .LDY, .LDY => true
    | .LSR, .LSR => true
    | .NOP b1 c1, .NOP b2 c2 => b1 == b2 && c1 == c2
    | .ORA, .ORA => true
    | .PHA, .PHA => true
    | .PHP, .PHP => true
    | .PHX, .PHX => true
    | .PHY, .PHY => true
    | .PLA, .PLA => true
    | .PLP, .PLP => true
    | .PLX, .PLX => true
    | .PLY, .PLY => true
    | .RMB n, .RMB m => n == m
    | .ROL, .ROL => true
    | .ROR, .ROR => true
    | .RTI, .RTI => true
    | .RTS, .RTS => true
    | .SBC, .SBC => true
    | .SEC, .SEC => true
    | .SED, .SED => true
    | .SEI, .SEI => true
    | .SMB n, .SMB m => n == m
    | .STA, .STA => true
    | .STP, .STP => true
    | .STX, .STX => true
    | .STY, .STY => true
    | .STZ, .STZ => true
    | .TAX, .TAX => true
    | .TAY, .TAY => true
    | .TRB, .TRB => true
    | .TSB, .TSB => true
    | .TSX, .TSX => true
    | .TXA, .TXA => true
    | .TXS, .TXS => true
    | .TYA, .TYA => true
    | .WAI, .WAI => true
    | _, _ => false

/-- Run-mode state of the CPU (`CPUState` in `components/cpu.rs`). -/
inductive CPUState where
  | Init (c : Nat)
  | Run
  | Wait
  | Halt
deriving DecidableEq, Repr

set_option maxHeartbeats 1600000 in
/-- Decoder from an opcode byte to `(Instruction, AddressMode)`
(`decode` in `components/cpu.rs`).  The Rust match is exhaustive over `u8`;
`decode` is only ever applied to bus bytes (which are `< 256`), so the final
catch-all arm is unreachable on the intended domain. -/
def decode (val : Nat) : Instruction × AddressMode :=
  match val with
  | 0x6D => (.ADC, .Absolute)
  | 0x7D => (.ADC, .AbsoluteIndexedWithX)
  | 0x79 => (.ADC, .AbsoluteIndexedWithY)
  | 0x69 => (.ADC, .ImmediateAddressing)
  | 0x65 => (.ADC, .ZeroPage)
  | 0x61 => (.ADC, .ZeroPageIndexedIndirect)
  | 0x75 => (.ADC, .ZeroPageIndexedWithX)
  | 0x72 => (.ADC, .ZeroPageIndirect)
  | 0x71 => (.ADC, .ZeroPageIndirectIndexedWithY)
  | 0x2D => (.AND, .Absolute)
  | 0x3D => (.AND, .AbsoluteIndexedWithX)
  | 0x39 => (.AND, .AbsoluteIndexedWithY)
  | 0x29 => (.AND, .ImmediateAddressing)
  | 0x25 => (.AND, .ZeroPage)
  | 0x21 => (.AND, .ZeroPageIndexedIndirect)
  | 0x35 => (.AND, .ZeroPageIndexedWithX)
  | 0x32 => (.AND, .ZeroPageIndirect)
  | 0x31 => (.AND, .ZeroPageIndirectIndexedWithY)
  | 0x0E => (.ASL, .Absolute)
  | 0x1E => (.ASL, .AbsoluteIndexedWithX)
  | 0x0A => (.ASL, .Accumulator)
  | 0x06 => (.ASL, .ZeroPage)
  | 0x16 => (.ASL, .ZeroPageIndexedWithX)
  | 0x0F => (.BBR 0, .ProgramCounterRelative)
  | 0x1F => (.BBR 1, .ProgramCounterRelative)
  | 0x2F => (.BBR 2, .ProgramCounterRelative)
  | 0x3F => (.BBR 3, .ProgramCounterRelative)
  | 0x4F => (.BBR 4, .ProgramCounterRelative)
  | 0x5F => (.BBR 5, .ProgramCounterRelative)
  | 0x6F => (.BBR 6, .ProgramCounterRelative)
  | 0x7F => (.BBR 7, .ProgramCounterRelative)
  | 0x8F => (.BBS 0, .ProgramCounterRelative)
  | 0x9F => (.BBS 1, .ProgramCounterRelative)
  | 0xAF => (.BBS 2, .ProgramCounterRelative)
  | 0xBF => (.BBS 3, .ProgramCounterRelative)
  | 0xCF => (.BBS 4, .ProgramCounterRelative)
  | 0xDF => (.BBS 5, .ProgramCounterRelative)
  | 0xEF => (.BBS 6, .ProgramCounterRelative)
  | 0xFF => (.BBS 7, .ProgramCounterRelative)
  | 0x90 => (.BCC, .ProgramCounterRelative)
  | 0xB0 => (.BCS, .ProgramCounterRelative)
  | 0xF0 => (.BEQ, .ProgramCounterRelative)
  | 0x2C => (.BIT, .Absolute)
  | 0x3C => (.BIT, .AbsoluteIndexedWithX)
  | 0x89 => (.BIT, .ImmediateAddressing)
  | 0x24 => (.BIT, .ZeroPage)
  | 0x34 => (.BIT, .ZeroPageIndexedWithX)
  | 0x30 => (.BMI, .ProgramCounterRelative)
  | 0xD0 => (.BNE, .ProgramCounterRelative)
  | 0x10 => (.BPL, .ProgramCounterRelative)
  | 0x80 => (.BRA, .ProgramCounterRelative)
  | 0x00 => (.BRK, .Stack)
  | 0x50 => (.BVC, .ProgramCounterRelative)
  | 0x70 => (.BVS, .ProgramCounterRelative)
  | 0x18 => (.CLC, .Implied)
  | 0xD8 => (.CLD, .Implied)
  | 0x58 => (.CLI, .Implied)
  | 0xB8 => (.CLV, .Implied)
  | 0xCD => (.CMP, .Absolute)
  | 0xDD => (.CMP, .AbsoluteIndexedWithX)
  | 0xD9 => (.CMP, .AbsoluteIndexedWithY)
  | 0xC9 => (.CMP, .ImmediateAddressing)
  | 0xC5 => (.CMP, .ZeroPage)
  | 0xC1 => (.CMP, .ZeroPageIndexedIndirect)
  | 0xD5 => (.CMP, .ZeroPageIndexedWithX)
  | 0xD2 => (.CMP, .ZeroPageIndirect)
  | 0xD1 => (.CMP, .ZeroPageIndirectIndexedWithY)
  | 0xEC => (.CPX, .Absolute)
  | 0xE0 => (.CPX, .ImmediateAddressing)
  | 0xE4 => (.CPX, .ZeroPage)
  | 0xCC => (.CPY, .Absolute)
  | 0xC0 => (.CPY, .ImmediateAddressing)
  | 0xC4 => (.CPY, .ZeroPage)
  | 0xCE => (.DEC, .Absolute)
  | 0xDE => (.DEC, .AbsoluteIndexedWithX)
  | 0x3A => (.DEC, .Accumulator)
  | 0xC6 => (.DEC, .ZeroPage)
  | 0xD6 => (.DEC, .ZeroPageIndexedWithX)
  | 0xCA => (.DEX, .Implied)
  | 0x88 => (.DEY, .Implied)
  | 0x4D => (.EOR, .Absolute)
  | 0x5D => (.EOR, .AbsoluteIndexedWithX)
  | 0x59 => (.EOR, .AbsoluteIndexedWithY)
  | 0x49 => (.EOR, .ImmediateAddressing)
  | 0x45 => (.EOR, .ZeroPage)
  | 0x41 => (.EOR, .ZeroPageIndexedIndirect)
  | 0x55 => (.EOR, .ZeroPageIndexedWithX)
  | 0x52 => (.EOR, .ZeroPageIndirect)
  | 0x51 => (.EOR, .ZeroPageIndirectIndexedWithY)
  | 0xEE => (.INC, .Absolute)
  | 0xFE => (.INC, .AbsoluteIndexedWithX)
  | 0x1A => (.INC, .Accumulator)
  | 0xE6 => (.INC, .ZeroPage)
  | 0xF6 => (.INC, .ZeroPageIndexedWithX)
  | 0xE8 => (.INX, .Implied)
  | 0xC8 => (.INY, .Implied)
  | 0x4C => (.JMP, .Absolute)
  | 0x7C => (.JMP, .AbsoluteIndexedIndirect)
  | 0x6C => (.JMP, .AbsoluteIndirect)
  | 0x20 => (.JSR, .Absolute)
  | 0xAD => (.LDA, .Absolute)
  | 0xBD => (.LDA, .AbsoluteIndexedWithX)
  | 0xB9 => (.LDA, .AbsoluteIndexedWithY)
  | 0xA9 => (.LDA, .ImmediateAddressing)
  | 0xA5 => (.LDA, .ZeroPage)
  | 0xA1 => (.LDA, .ZeroPageIndexedIndirect)
  | 0xB5 => (.LDA, .ZeroPageIndexedWithX)
  | 0xB2 => (.LDA, .ZeroPageIndirect)
  | 0xB1 => (.LDA, .ZeroPageIndirectIndexedWithY)
  | 0xAE => (.LDX, .Absolute)
  | 0xBE => (.LDX, .AbsoluteIndexedWithY)
  | 0xA2 => (.LDX, .ImmediateAddressing)
  | 0xA6 => (.LDX, .ZeroPage)
  | 0xB6 => (.LDX, .ZeroPageIndexedWithY)
  | 0xAC => (.LDY, .Absolute)
  | 0xBC => (.LDY, .AbsoluteIndexedWithX)
  | 0xA0 => (.LDY, .ImmediateAddressing)
  | 0xA4 => (.LDY, .ZeroPage)
  | 0xB4 => (.LDY, .ZeroPageIndexedWithX)
  | 0x4E => (.LSR, .Absolute)
  | 0x5E => (.LSR, .AbsoluteIndexedWithX)
  | 0x4A => (.LSR, .Accumulator)
  | 0x46 => (.LSR, .ZeroPage)
  | 0x56 => (.LSR, .ZeroPageIndexedWithX)
  | 0xEA => (.NOP 1 2, .Implied)
  | 0x02 => (.NOP 2 2, .Implied)
  | 0x22 => (.NOP 2 2, .Implied)
  | 0x42 => (.NOP 2 2, .Implied)
  | 0x62 => (.NOP 2 2, .Implied)
  | 0x82 => (.NOP 2 2, .Implied)
  | 0xC2 => (.NOP 2 2, .Implied)
  | 0xE2 => (.NOP 2 2, .Implied)
  | 0x03 => (.NOP 1 1, .Implied)
  | 0x13 => (.NOP 1 1, .Implied)
  | 0x23 => (.NOP 1 1, .Implied)
  | 0x33 => (.NOP 1 1, .Implied)
  | 0x43 => (.NOP 1 1, .Implied)
  | 0x53 => (.NOP 1 1, .Implied)
  | 0x63 => (.NOP 1 1, .Implied)
  | 0x73 => (.NOP 1 1, .Implied)
  | 0x83 => (.NOP 1 1, .Implied)
  | 0x93 => (.NOP 1 1, .Implied)
  | 0xA3 => (.NOP 1 1, .Implied)
  | 0xB3 => (.NOP 1 1, .Implied)
  | 0xC3 => (.NOP 1 1, .Implied)
  | 0xD3 => (.NOP 1 1, .Implied)
  | 0xE3 => (.NOP 1 1, .Implied)
  | 0xF3 => (.NOP 1 1, .Implied)
  | 0x44 => (.NOP 2 3, .Implied)
  | 0x54 => (.NOP 2 4, .Implied)
  | 0xD4 => (.NOP 2 4, .Implied)
  | 0xF4 => (.NOP 2 4, .Implied)
  | 0x0B => (.NOP 1 1, .Implied)
  | 0x1B => (.NOP 1 1, .Implied)
  | 0x2B => (.NOP 1 1, .Implied)
  | 0x3B => (.NOP 1 1, .Implied)
  | 0x4B => (.NOP 1 1, .Implied)
  | 0x5B => (.NOP 1 1, .Implied)
  | 0x6B => (.NOP 1 1, .Implied)
  | 0x7B => (.NOP 1 1, .Implied)
  | 0x8B => (.NOP 1 1, .Implied)
  | 0x9B => (.NOP 1 1, .Implied)
  | 0xAB => (.NOP 1 1, .Implied)
  | 0xBB => (.NOP 1 1, .Implied)
  | 0xEB => (.NOP 1 1, .Implied)
  | 0xFB => (.NOP 1 1, .Implied)
  | 0x5C => (.NOP 3 8, .Implied)
  | 0xDC => (.NOP 3 4, .Implied)
  | 0xFC => (.NOP 3 4, .Implied)
  | 0x0D => (.ORA, .Absolute)
  | 0x1D => (.ORA, .AbsoluteIndexedWithX)
  | 0x19 => (.ORA, .AbsoluteIndexedWithY)
  | 0x09 => (.ORA, .ImmediateAddressing)
  | 0x05 => (.ORA, .ZeroPage)
  | 0x01 => (.ORA, .ZeroPageIndexedIndirect)
  | 0x15 => (.ORA, .ZeroPageIndexedWithX)
  | 0x12 => (.ORA, .ZeroPageIndirect)
  | 0x11 => (.ORA, .ZeroPageIndirectIndexedWithY)
  | 0x48 => (.PHA, .Stack)
  | 0x08 => (.PHP, .Stack)
  | 0xDA => (.PHX, .Stack)
  | 0x5A => (.PHY, .Stack)
  | 0x68 => (.PLA, .Stack)
  | 0x28 => (.PLP, .Stack)
  | 0xFA => (.PLX, .Stack)
  | 0x7A => (.PLY, .Stack)
  | 0x07 => (.RMB 0, .ZeroPage)
  | 0x17 => (.RMB 1, .ZeroPage)
  | 0x27 => (.RMB 2, .ZeroPage)
  | 0x37 => (.RMB 3, .ZeroPage)
  | 0x47 => (.RMB 4, .ZeroPage)
  | 0x57 => (.RMB 5, .ZeroPage)
  | 0x67 => (.RMB 6, .ZeroPage)
  | 0x77 => (.RMB 7, .ZeroPage)
  | 0x2E => (.ROL, .Absolute)
  | 0x3E => (.ROL, .AbsoluteIndexedWithX)
  | 0x2A => (.ROL, .Accumulator)
  | 0x26 => (.ROL, .ZeroPage)
  | 0x36 => (.ROL, .ZeroPageIndexedWithX)
  | 0x6E => (.ROR, .Absolute)
  | 0x7E => (.ROR, .AbsoluteIndexedWithX)
  | 0x6A => (.ROR, .Accumulator)
  | 0x66 => (.ROR, .ZeroPage)
  | 0x76 => (.ROR, .ZeroPageIndexedWithX)
  | 0x40 => (.RTI, .Stack)
  | 0x60 => (.RTS, .Stack)
  | 0xED => (.SBC, .Absolute)
  | 0xFD => (.SBC, .AbsoluteIndexedWithX)
  | 0xF9 => (.SBC, .AbsoluteIndexedWithY)
  | 0xE9 => (.SBC, .ImmediateAddressing)
  | 0xE5 => (.SBC, .ZeroPage)
  | 0xE1 => (.SBC, .ZeroPageIndexedIndirect)
  | 0xF5 => (.SBC, .ZeroPageIndexedWithX)
  | 0xF2 => (.SBC, .ZeroPageIndirect)
  | 0xF1 => (.SBC, .ZeroPageIndirectIndexedWithY)
  | 0x38 => (.SEC, .Implied)
  | 0xF8 => (.SED, .Implied)
  | 0x78 => (.SEI, .Implied)
  | 0x87 => (.SMB 0, .ZeroPage)
  | 0x97 => (.SMB 1, .ZeroPage)
  | 0xA7 => (.SMB 2, .ZeroPage)
  | 0xB7 => (.SMB 3, .ZeroPage)
  | 0xC7 => (.SMB 4, .ZeroPage)
  | 0xD7 => (.SMB 5, .ZeroPage)
  | 0xE7 => (.SMB 6, .ZeroPage)
  | 0xF7 => (.SMB 7, .ZeroPage)
  | 0x8D => (.STA, .Absolute)
  | 0x9D => (.STA, .AbsoluteIndexedWithX)
  | 0x99 => (.STA, .AbsoluteIndexedWithY)
  | 0x85 => (.STA, .ZeroPage)
  | 0x81 => (.STA, .ZeroPageIndexedIndirect)
  | 0x95 => (.STA, .ZeroPageIndexedWithX)
  | 0x92 => (.STA, .ZeroPageIndirect)
  | 0x91 => (.STA, .ZeroPageIndirectIndexedWithY)
  | 0xDB => (.STP, .Implied)
  | 0x8E => (.STX, .Absolute)
  | 0x86 => (.STX, .ZeroPage)
  | 0x96 => (.STX, .ZeroPageIndexedWithY)
  | 0x8C => (.STY, .Absolute)
  | 0x84 => (.STY, .ZeroPage)
  | 0x94 => (.STY, .ZeroPageIndexedWithX)
  | 0x9C => (.STZ, .Absolute)
  | 0x9E => (.STZ, .AbsoluteIndexedWithX)
  | 0x64 => (.STZ, .ZeroPage)
  | 0x74 => (.STZ, .ZeroPageIndexedWithX)
  | 0xAA => (.TAX, .Implied)
  | 0xA8 => (.TAY, .Implied)
  | 0x1C => (.TRB, .Absolute)
  | 0x14 => (.TRB, .ZeroPage)
  | 0x0C => (.TSB, .Absolute)
  | 0x04 => (.TSB, .ZeroPage)
  | 0xBA => (.TSX, .Implied)
  | 0x8A => (.TXA, .Implied)
  | 0x9A => (.TXS, .Implied)
  | 0x98 => (.TYA, .Implied)
  | 0xCB => (.WAI, .Implied)
  | _ => (.BBS 7, .ProgramCounterRelative)

/-- Processor-status flag masks (`CPUFlag` in `components/cpu.rs`). -/
def CPUFlag.Carry : Nat := 0x01

/-- Zero flag mask. -/
def CPUFlag.Zero : Nat := 0x02

/-- Interrupt-disable flag mask. -/
def CPUFlag.IRQB : Nat := 0x04

/-- Decimal flag mask. -/
def CPUFlag.Decimal : Nat := 0x08

/-- Break flag mask. -/
def CPUFlag.BRK : Nat := 0x10

/-- User flag mask. -/
def CPUFlag.User : Nat := 0x20

/-- Overflow flag mask. -/
def CPUFlag.Overflow : Nat := 0x40

/-- Negative flag mask. -/
def CPUFlag.Negative : Nat := 0x80

/-- Bitwise complement of an 8-bit mask (Rust `!m` on `u8`). -/
def not8 (m : Nat) : Nat := 0xFF ^^^ m

/-- Bitwise complement of a 16-bit mask (Rust `!m` on `u16`). -/
def not16 (m : Nat) : Nat := 0xFFFF ^^^ m

/-- CPU state (`W65C02S` in `components/cpu.rs`).  The `Bus` collaborator of
the CPU-test harness (`SystemBus` in `system/cpu_test_system.rs`) is a RAM
covering the whole 16-bit address space, embedded as the byte map `mem`. -/
structure W65C02S where
  state : CPUState
  ir : Instruction × AddressMode
  tcu : Nat
  a : Nat
  x : Nat
  y : Nat
  p : Nat
  pc : Nat
  s : Nat
  temp8 : Nat
  temp16 : Nat
  interrupt : Bool
  mem : Nat → Nat

/-- Bus read (`RAM::read` behind `SystemBus`); RAM cells are `u8`, so reads
are reduced modulo 256. -/
def W65C02S.read (c : W65C02S) (addr : Nat) : Nat := c.mem addr % 256

/-- Bus write (`RAM::write` behind `SystemBus`). -/
def W65C02S.write (c : W65C02S) (addr val : Nat) : W65C02S :=
  { c with mem := fun a => if a = addr then val % 256 else c.mem a }

/-- Push to the stack (`stack_push`): write at `0x0100 + s`, then decrement
`s` with wrap (`wrapping_sub(1)` on `u8`). -/
def W65C02S.stack_push (c : W65C02S) (val : Nat) : W65C02S :=
  let c1 := c.write (0x0100 + c.s) val
  { c1 with s := (c1.s + 255) % 256 }

/-- Pop from the stack (`stack_pop`): increment `s` with wrap, then read at
`0x0100 + s`. -/
def W65C02S.stack_pop (c : W65C02S) : Nat × W65C02S :=
  let c1 := { c with s := (c.s + 1) % 256 }
  (c1.read (0x0100 + c1.s), c1)

/-- Read the top of the stack without moving `s` (`stack_peek`). -/
def W65C02S.stack_peek (c : W65C02S) : Nat := c.read (0x0100 + c.s)

/-- Fetch the byte at `pc` and advance `pc` (`fetch`); the `u16` increment is
taken modulo 2^16. -/
def W65C02S.fetch (c : W65C02S) : Nat × W65C02S :=
  (c.read c.pc, { c with pc := (c.pc + 1) % 65536 })

/-- Set or clear the bits of mask `m` in a status byte: the repeated
`if val { p |= m } else { p &= !m }` body of the `update_*_flag` helpers. -/
def flag_put (p m : Nat) (val : Bool) : Nat :=
  if val then p ||| m else p &&& not8 m

/-- Zero-flag update (`update_zero_flag`). -/
def W65C02S.update_zero_flag (c : W65C02S) (val : Bool) : W65C02S :=
  { c with p := flag_put c.p CPUFlag.Zero val }

/-- Negative-flag update from bit 7 of a value (`update_negative_flag`). -/
def W65C02S.update_negative_flag (c : W65C02S) (val : Nat) : W65C02S :=
  { c with p := flag_put c.p CPUFlag.Negative (val &&& 0x80 == 0x80) }

/-- Decimal-flag update (`update_decimal_flag`). -/
def W65C02S.update_decimal_flag (c : W65C02S) (val : Bool) : W65C02S :=
  { c with p := flag_put c.p CPUFlag.Decimal val }

/-- Overflow-flag update (`update_overflow_flag`). -/
def W65C02S.update_overflow_flag (c : W65C02S) (val : Bool) : W65C02S :=
  { c with p := flag_put c.p CPUFlag.Overflow val }

/-- Carry-flag update (`update_carry_flag`). -/
def W65C02S.update_carry_flag (c : W65C02S) (val : Bool) : W65C02S :=
  { c with p := flag_put c.p CPUFlag.Carry val }

/-- Interrupt-disable-flag update (`update_irqb_flag`). -/
def W65C02S.update_irqb_flag (c : W65C02S) (val : Bool) : W65C02S :=
  { c with p := flag_put c.p CPUFlag.IRQB val }

/-- Conditional branch helper (`branch`): fetch the offset into `temp8`,
then continue to the displacement tick iff the selected flag matches. -/
def W65C02S.branch (c : W65C02S) (flag : Nat) (val : Bool) : W65C02S :=
  let (v, c1) := c.fetch
  let c2 := { c1 with temp8 := v }
  if c2.p &&& flag == (if val then flag else 0) then
    { c2 with tcu := c2.tcu + 1 }
  else
    { c2 with tcu := 0 }

/-- Displace `pc` by `temp8` interpreted as a signed 8-bit offset (the
`offset >= 0` / `offset < 0` branches of the relative arms); the `u16`
arithmetic wraps modulo 2^16. -/
def pc_offset (pc t8 : Nat) : Nat :=
  if t8 < 0x80 then (pc + t8) % 65536 else (pc + 65536 - (256 - t8)) % 65536

/-- The shared operand pattern of the read-class instruction arms:
`if addressing is immediate, fetch at pc, else read at temp16`. -/
def W65C02S.fetch_operand (c : W65C02S) : Nat × W65C02S :=
  if c.ir.2 = AddressMode.ImmediateAddressing then c.fetch
  else (c.read c.temp16, c)

/-- Error outcomes of a CPU tick.  `overflow8` is the checked `temp8 + 1`
8-bit addition of the zero-page pointer high-byte arms; `adcExtra` and
`sbcExtra` are the `panic!` calls guarding the decimal-mode extra cycle;
`unimpl` is the `unimplemented!` default arm (the source also sets
`CPUState::Halt` there, but the process dies in the panic). -/
inductive CErr where
  | overflow8
  | adcExtra
  | sbcExtra
  | unimpl
deriving DecidableEq, Repr

set_option maxHeartbeats 4000000 in
/-- One `CPUState::Run` tick: the exhaustive interpreter match over
`(self.ir, self.tcu)` in `W65C02S::cycle` (`components/cpu.rs`), transcribed
arm by arm in source order.  Arms are keyed on
`(instruction, address mode, tcu)`; the first arm (any instruction, `tcu = 0`)
fetches and decodes, the final catch-all is the `unimplemented!` default. -/
def run_arm (c : W65C02S) : Except CErr W65C02S :=
  match c.ir.1, c.ir.2, c.tcu with
  | _, _, 0 =>
    if (c.p &&& CPUFlag.IRQB == 0) && c.interrupt then
      .ok { c with ir := (.BRK, .Implied), tcu := c.tcu + 1 }
    else
      let (v, c1) := c.fetch
      let ir := decode v
      if ir.1 == Instruction.NOP 1 1 then
        .ok { c1 with ir := ir, tcu := 0 }
      else
        .ok { c1 with ir := ir, tcu := c1.tcu + 1 }
  | .ADC, .ImmediateAddressing, 1
  | .ADC, .ZeroPage, 2
  | .ADC, .ZeroPageIndexedWithX, 3
  | .ADC, .Absolute, 3
  | .ADC, .AbsoluteIndexedWithX, 3
  | .ADC, .AbsoluteIndexedWithY, 3
  | .ADC, .ZeroPageIndexedIndirect, 5
  | .ADC, .ZeroPageIndirectIndexedWithY, 4
  | .ADC, .ZeroPageIndirect, 4 =>
    let op1 := c.a
    let (op2, c1) := c.fetch_operand
    if c1.p &&& CPUFlag.Decimal == 0 then
      let sum := (op1 + op2 + (c1.p &&& CPUFlag.Carry)) % 65536
      let c2 := { c1 with a := sum % 256 }
      let c3 := c2.update_zero_flag (c2.a == 0)
      let c4 := c3.update_negative_flag c3.a
      let c5 := c4.update_carry_flag (sum &&& 0x100 == 0x100)
      let c6 := c5.update_overflow_flag
        (((sum ^^^ op1) &&& (sum ^^^ op2)) &&& 0x80 == 0x80)
      .ok { c6 with tcu := 0 }
    else
      let carry_in := c1.p &&& CPUFlag.Carry
      let sum0 := (op1 &&& 0xf) + (op2 &&& 0xf) + carry_in
      let sum1 := if sum0 > 9 then sum0 + 0x06 else sum0
      let sum2 := sum1 + (op1 &&& 0xf0) + (op2 &&& 0xf0)
      let sum := if sum2 >>> 4 > 9 then sum2 + 0x60 else sum2
      let c2 := { c1 with a := sum % 256 }
      let c3 := c2.update_overflow_flag
        (((sum ^^^ op1) &&& (sum ^^^ op2)) &&& 0x80 == 0x80)
      let c4 := c3.update_carry_flag (!(sum &&& 0xFF00 == 0))
      let c5 := c4.update_zero_flag (c4.a == 0)
      let c6 := c5.update_negative_flag c5.a
      .ok { c6 with tcu := c6.tcu + 1 }
  | .ADC, .ImmediateAddressing, 2
  | .ADC, .ZeroPage, 3
  | .ADC, .ZeroPageIndexedWithX, 4
  | .ADC, .Absolute, 4
  | .ADC, .AbsoluteIndexedWithX, 4
  | .ADC, .AbsoluteIndexedWithY, 4
  | .ADC, .ZeroPageIndexedIndirect, 6
  | .ADC, .ZeroPageIndirectIndexedWithY, 5
  | .ADC, .ZeroPageIndirect, 5 =>
    if c.p &&& CPUFlag.Decimal == 0 then .error .adcExtra
    else .ok { c with tcu := 0 }
  | .AND, .ImmediateAddressing, 1
  | .AND, .ZeroPage, 2
  | .AND, .ZeroPageIndexedWithX, 3
  | .AND, .Absolute, 3
  | .AND, .AbsoluteIndexedWithX, 3
  | .AND, .AbsoluteIndexedWithY, 3
  | .AND, .ZeroPageIndexedIndirect, 5
  | .AND, .ZeroPageIndirectIndexedWithY, 4
  | .AND, .ZeroPageIndirect, 4 =>
    let (v, c1) := c.fetch_operand
    let c2 := { c1 with a := c1.a &&& v }
    let c3 := c2.update_zero_flag (c2.a == 0)
    let c4 := c3.update_negative_flag c3.a
    .ok { c4 with tcu := 0 }
  | .ASL, .Accumulator, 1 =>
    let c1 := c.update_carry_flag (c.a &&& 0x80 == 0x80)
    let c2 := { c1 with a := c1.a <<< 1 % 256 }
    let c3 := c2.update_zero_flag (c2.a == 0)
    let c4 := c3.update_negative_flag c3.a
    .ok { c4 with tcu := 0 }
  | .ASL, .ZeroPage, 2
  | .ASL, .ZeroPageIndexedWithX, 3
  | .ASL, .Absolute, 3
  | .ASL, .AbsoluteIndexedWithX, 3 =>
    .ok { c with temp8 := c.read c.temp16, tcu := c.tcu + 1 }
  | .ASL, .ZeroPage, 3
  | .ASL, .ZeroPageIndexedWithX, 4
  | .ASL, .Absolute, 4
  | .ASL, .AbsoluteIndexedWithX, 4 =>
    let c1 := c.update_carry_flag (c.temp8 &&& 0x80 == 0x80)
    let c2 := { c1 with temp8 := c1.temp8 <<< 1 % 256 }
    let c3 := c2.update_zero_flag (c2.temp8 == 0)
    let c4 := c3.update_negative_flag c3.temp8
    .ok { c4 with tcu := c4.tcu + 1 }
  | .ASL, .AbsoluteIndexedWithX, 5 =>
    .ok { c with tcu := c.tcu + 1 }
  | .ASL, .ZeroPage, 4
  | .ASL, .ZeroPageIndexedWithX, 5
  | .ASL, .Absolute, 5
  | .ASL, .AbsoluteIndexedWithX, 6 =>
    .ok { c.write c.temp16 c.temp8 with tcu := 0 }
  | .BBS _, .ProgramCounterRelative, 1
  | .BBR _, .ProgramCounterRelative, 1 =>
    let (v, c1) := c.fetch
    .ok { c1 with temp16 := v, tcu := c1.tcu + 1 }
  | .BBS _, .ProgramCounterRelative, 2
  | .BBR _, .ProgramCounterRelative, 2 =>
    let (v, c1) := c.fetch
    .ok { c1 with temp8 := v, tcu := c1.tcu + 1 }
  | .BBS _, .ProgramCounterRelative, 3
  | .BBR _, .ProgramCounterRelative, 3 =>
    .ok { c with temp16 := c.read c.temp16, tcu := c.tcu + 1 }
  | .BBS n, .ProgramCounterRelative, 4 =>
    if (c.temp16 >>> n) &&& 1 == 1 then
      .ok { c with pc := pc_offset c.pc c.temp8, tcu := 0 }
    else
      .ok { c with tcu := 0 }
  | .BBR n, .ProgramCounterRelative, 4 =>
    if (c.temp16 >>> n) &&& 1 == 0 then
      .ok { c with pc := pc_offset c.pc c.temp8, tcu := 0 }
    else
      .ok { c with tcu := 0 }
  | .BCC, .ProgramCounterRelative, 1 => .ok (c.branch CPUFlag.Carry false)
  | .BCS, .ProgramCounterRelative, 1 => .ok (c.branch CPUFlag.Carry true)
  | .BEQ, .ProgramCounterRelative, 1 => .ok (c.branch CPUFlag.Zero true)
  | .BIT, .ImmediateAddressing, 1
  | .BIT, .ZeroPage, 2
  | .BIT, .ZeroPageIndexedWithX, 3
  | .BIT, .Absolute, 3
  | .BIT, .AbsoluteIndexedWithX, 3 =>
    let (operand, c1) := c.fetch_operand
    let val := c1.a &&& operand
    let c2 := c1.update_zero_flag (val == 0)
    let c3 :=
      if c2.ir.2 ≠ AddressMode.ImmediateAddressing then
        (c2.update_overflow_flag (operand &&& 0x40 == 0x40)).update_negative_flag operand
      else c2
    .ok { c3 with tcu := 0 }
  | .BMI, .ProgramCounterRelative, 1 => .ok (c.branch CPUFlag.Negative true)
  | .BNE, .ProgramCounterRelative, 1 => .ok (c.branch CPUFlag.Zero false)
  | .BPL, .ProgramCounterRelative, 1 => .ok (c.branch CPUFlag.Negative false)
  | .BRA, .ProgramCounterRelative, 1 =>
    let (v, c1) := c.fetch
    .ok { c1 with temp8 := v, tcu := c1.tcu + 1 }
  | .BRK, .Implied, 1 =>
    .ok { c with tcu := c.tcu + 1 }
  | .BRK, .Stack, 1 =>
    let c1 := { c with p := c.p ||| CPUFlag.BRK }
    let (_, c2) := c1.fetch
    .ok { c2 with tcu := c2.tcu + 1 }
  | .BRK, _, 2 =>
    .ok { c.stack_push (c.pc >>> 8) with tcu := c.tcu + 1 }
  | .BRK, _, 3 =>
    .ok { c.stack_push (c.pc &&& 0xff) with tcu := c.tcu + 1 }
  | .BRK, _, 4 =>
    .ok { c.stack_push (c.p ||| CPUFlag.BRK ||| CPUFlag.User) with tcu := c.tcu + 1 }
  | .BRK, _, 5 =>
    let c1 := { c with p := (c.p ||| CPUFlag.IRQB) &&& not8 CPUFlag.Decimal }
    .ok { c1 with pc := c1.read 0xFFFE, tcu := c1.tcu + 1 }
  | .BRK, _, 6 =>
    .ok { c with pc := c.pc ||| (c.read 0xFFFF <<< 8), tcu := 0 }
  | .BVC, .ProgramCounterRelative, 1 => .ok (c.branch CPUFlag.Overflow false)
  | .BVS, .ProgramCounterRelative, 1 => .ok (c.branch CPUFlag.Overflow true)
  | .CLC, .Implied, 1 => .ok { c.update_carry_flag false with tcu := 0 }
  | .CLD, .Implied, 1 => .ok { c.update_decimal_flag false with tcu := 0 }
  | .CLI, .Implied, 1 => .ok { c.update_irqb_flag false with tcu := 0 }
  | .CLV, .Implied, 1 => .ok { c.update_overflow_flag false with tcu := 0 }
  | .CMP, .ImmediateAddressing, 1
  | .CMP, .ZeroPage, 2
  | .CMP, .ZeroPageIndexedWithX, 3
  | .CMP, .Absolute, 3
  | .CMP, .AbsoluteIndexedWithX, 3
  | .CMP, .AbsoluteIndexedWithY, 3
  | .CMP, .ZeroPageIndexedIndirect, 5
  | .CMP, .ZeroPageIndirectIndexedWithY, 4
  | .CMP, .ZeroPageIndirect, 4 =>
    let (v, c1) := c.fetch_operand
    let c2 := { c1 with temp8 := v }
    let c3 := c2.update_carry_flag (c2.a ≥ c2.temp8)
    let val := (c3.a + 256 - c3.temp8 % 256) % 256
    let c4 := c3.update_zero_flag (val == 0)
    let c5 := c4.update_negative_flag val
    .ok { c5 with tcu := 0 }
  | .CPX, .ImmediateAddressing, 1
  | .CPX, .ZeroPage, 2
  | .CPX, .Absolute, 3 =>
    let (v, c1) := c.fetch_operand
    let c2 := { c1 with temp8 := v }
    let c3 := c2.update_carry_flag (c2.x ≥ c2.temp8)
    let val := (c3.x + 256 - c3.temp8 % 256) % 256
    let c4 := c3.update_zero_flag (val == 0)
    let c5 := c4.update_negative_flag val
    .ok { c5 with tcu := 0 }
  | .CPY, .ImmediateAddressing, 1
  | .CPY, .ZeroPage, 2
  | .CPY, .Absolute, 3 =>
    let (v, c1) := c.fetch_operand
    let c2 := { c1 with temp8 := v }
    let c3 := c2.update_carry_flag (c2.y ≥ c2.temp8)
    let val := (c3.y + 256 - c3.temp8 % 256) % 256
    let c4 := c3.update_zero_flag (val == 0)
    let c5 := c4.update_negative_flag val
    .ok { c5 with tcu := 0 }
  | .DEC, .Accumulator, 1 =>
    let c1 := { c with a := (c.a + 255) % 256 }
    let c2 := c1.update_zero_flag (c1.a == 0)
    let c3 := c2.update_negative_flag c2.a
    .ok { c3 with tcu := 0 }
  | .DEC, .ZeroPage, 2
  | .DEC, .ZeroPageIndexedWithX, 3
  | .DEC, .Absolute, 3
  | .DEC, .AbsoluteIndexedWithX, 3 =>
    .ok { c with temp8 := c.read c.temp16, tcu := c.tcu + 1 }
  | .DEC, .ZeroPage, 3
  | .DEC, .ZeroPageIndexedWithX, 4
  | .DEC, .Absolute, 4
  | .DEC, .AbsoluteIndexedWithX, 4 =>
    let c1 := { c with temp8 := (c.temp8 + 255) % 256 }
    let c2 := c1.update_zero_flag (c1.temp8 == 0)
    let c3 := c2.update_negative_flag c2.temp8
    .ok { c3 with tcu := c3.tcu + 1 }
  | .DEC, .ZeroPage, 4
  | .DEC, .ZeroPageIndexedWithX, 5
  | .DEC, .Absolute, 5
  | .DEC, .AbsoluteIndexedWithX, 5 =>
    .ok { c.write c.temp16 c.temp8 with tcu := 0 }
  | .DEX, .Implied, 1 =>
    let c1 := { c with x := (c.x + 255) % 256 }
    let c2 := c1.update_zero_flag (c1.x == 0)
    let c3 := c2.update_negative_flag c2.x
    .ok { c3 with tcu := 0 }
  | .DEY, .Implied, 1 =>
    let c1 := { c with y := (c.y + 255) % 256 }
    let c2 := c1.update_zero_flag (c1.y == 0)
    let c3 := c2.update_negative_flag c2.y
    .ok { c3 with tcu := 0 }
  | .EOR, .ImmediateAddressing, 1
  | .EOR, .ZeroPage, 2
  | .EOR, .ZeroPageIndexedWithX, 3
  | .EOR, .Absolute, 3
  | .EOR, .AbsoluteIndexedWithX, 3
  | .EOR, .AbsoluteIndexedWithY, 3
  | .EOR, .ZeroPageIndexedIndirect, 5
  | .EOR, .ZeroPageIndirectIndexedWithY, 4
  | .EOR, .ZeroPageIndirect, 4 =>
    let (v, c1) := c.fetch_operand
    let c2 := { c1 with a := c1.a ^^^ v }
    let c3 := c2.update_zero_flag (c2.a == 0)
    let c4 := c3.update_negative_flag c3.a
    .ok { c4 with tcu := 0 }
  | .INC, .Accumulator, 1 =>
    let c1 := { c with a := (c.a + 1) % 256 }
    let c2 := c1.update_zero_flag (c1.a == 0)
    let c3 := c2.update_negative_flag c2.a
    .ok { c3 with tcu := 0 }
  | .INC, .ZeroPage, 2
  | .INC, .ZeroPageIndexedWithX, 3
  | .INC, .Absolute, 3
  | .INC, .AbsoluteIndexedWithX, 3 =>
    .ok { c with temp8 := c.read c.temp16, tcu := c.tcu + 1 }
  | .INC, .ZeroPage, 3
  | .INC, .ZeroPageIndexedWithX, 4
  | .INC, .Absolute, 4
  | .INC, .AbsoluteIndexedWithX, 4 =>
    let c1 := { c with temp8 := (c.temp8 + 1) % 256 }
    let c2 := c1.update_zero_flag (c1.temp8 == 0)
    let c3 := c2.update_negative_flag c2.temp8
    .ok { c3 with tcu := c3.tcu + 1 }
  | .INC, .ZeroPage, 4
  | .INC, .ZeroPageIndexedWithX, 5
  | .INC, .Absolute, 5
  | .INC, .AbsoluteIndexedWithX, 5 =>
    .ok { c.write c.temp16 c.temp8 with tcu := 0 }
  | .INX, .Implied, 1 =>
    let c1 := { c with x := (c.x + 1) % 256 }
    let c2 := c1.update_zero_flag (c1.x == 0)
    let c3 := c2.update_negative_flag c2.x
    .ok { c3 with tcu := 0 }
  | .INY, .Implied, 1 =>
    let c1 := { c with y := (c.y + 1) % 256 }
    let c2 := c1.update_zero_flag (c1.y == 0)
    let c3 := c2.update_negative_flag c2.y
    .ok { c3 with tcu := 0 }
  | .JMP, .Absolute, 2 =>
    let (v, c1) := c.fetch
    .ok { c1 with pc := c1.temp16 ||| (v <<< 8), tcu := 0 }
  | .JMP, .AbsoluteIndirect, 3
  | .JMP, .AbsoluteIndexedIndirect, 3 =>
    .ok { c with temp8 := c.read c.temp16, tcu := c.tcu + 1 }
  | .JMP, .AbsoluteIndexedIndirect, 4 =>
    .ok { c with tcu := c.tcu + 1 }
  | .JMP, .AbsoluteIndirect, 4
  | .JMP, .AbsoluteIndexedIndirect, 5 =>
    let pc1 := c.temp8
    .ok { c with pc := pc1 ||| (c.read ((c.temp16 + 1) % 65536) <<< 8), tcu := 0 }
  | .JSR, .Absolute, 1 =>
    let (v, c1) := c.fetch
    .ok { c1 with temp16 := v, tcu := c1.tcu + 1 }
  | .JSR, .Absolute, 2 =>
    .ok { c with tcu := c.tcu + 1 }
  | .JSR, .Absolute, 3 =>
    .ok { c.stack_push (c.pc >>> 8) with tcu := c.tcu + 1 }
  | .JSR, .Absolute, 4 =>
    .ok { c.stack_push (c.pc &&& 0xFF) with tcu := c.tcu + 1 }
  | .JSR, .Absolute, 5 =>
    let (v, c1) := c.fetch
    let t := c1.temp16 ||| (v <<< 8)
    .ok { c1 with temp16 := t, pc := t, tcu := 0 }
  | .LDA, .ImmediateAddressing, 1
  | .LDA, .ZeroPage, 2
  | .LDA, .ZeroPageIndexedWithX, 3
  | .LDA, .Absolute, 3
  | .LDA, .AbsoluteIndexedWithX, 3
  | .LDA, .AbsoluteIndexedWithY, 3
  | .LDA, .ZeroPageIndexedIndirect, 5
  | .LDA, .ZeroPageIndirectIndexedWithY, 4
  | .LDA, .ZeroPageIndirect, 4 =>
    let (v, c1) := c.fetch_operand
    let c2 := { c1 with a := v }
    let c3 := c2.update_zero_flag (c2.a == 0)
    let c4 := c3.update_negative_flag c3.a
    .ok { c4 with tcu := 0 }
  | .LDX, .ImmediateAddressing, 1
  | .LDX, .ZeroPage, 2
  | .LDX, .ZeroPageIndexedWithY, 3
  | .LDX, .Absolute, 3
  | .LDX, .AbsoluteIndexedWithY, 3 =>
    let (v, c1) := c.fetch_operand
    let c2 := { c1 with x := v }
    let c3 := c2.update_zero_flag (c2.x == 0)
    let c4 := c3.update_negative_flag c3.x
    .ok { c4 with tcu := 0 }
  | .LDY, .ImmediateAddressing, 1
  | .LDY, .ZeroPage, 2
  | .LDY, .ZeroPageIndexedWithX, 3
  | .LDY, .Absolute, 3
  | .LDY, .AbsoluteIndexedWithX, 3 =>
    let (v, c1) := c.fetch_operand
    let c2 := { c1 with y := v }
    let c3 := c2.update_zero_flag (c2.y == 0)
    let c4 := c3.update_negative_flag c3.y
    .ok { c4 with tcu := 0 }
  | .LSR, .Accumulator, 1 =>
    let c1 := c.update_carry_flag (c.a &&& 0x01 == 0x01)
    let c2 := { c1 with a := c1.a >>> 1 }
    let c3 := c2.update_zero_flag (c2.a == 0)
    let c4 := c3.update_negative_flag c3.a
    .ok { c4 with tcu := 0 }
  | .LSR, .ZeroPage, 2
  | .LSR, .ZeroPageIndexedWithX, 3
  | .LSR, .Absolute, 3
  | .LSR, .AbsoluteIndexedWithX, 3 =>
    .ok { c with temp8 := c.read c.temp16, tcu := c.tcu + 1 }
  | .LSR, .ZeroPage, 3
  | .LSR, .ZeroPageIndexedWithX, 4
  | .LSR, .Absolute, 4
  | .LSR, .AbsoluteIndexedWithX, 4 =>
    let c1 := c.update_carry_flag (c.temp8 &&& 0x01 == 0x01)
    let c2 := { c1 with temp8 := c1.temp8 >>> 1 }
    let c3 := c2.update_zero_flag (c2.temp8 == 0)
    let c4 := c3.update_negative_flag c3.temp8
    .ok { c4 with tcu := c4.tcu + 1 }
  | .LSR, .AbsoluteIndexedWithX, 5 =>
    .ok { c with tcu := c.tcu + 1 }
  | .LSR, .ZeroPage, 4
  | .LSR, .ZeroPageIndexedWithX, 5
  | .LSR, .Absolute, 5
  | .LSR, .AbsoluteIndexedWithX, 6 =>
    .ok { c.write c.temp16 c.temp8 with tcu := 0 }
  | .NOP bytes cycles, .Implied, tcu =>
    let c1 := if tcu < bytes then (c.fetch).2 else c
    let c2 := { c1 with tcu := c1.tcu + 1 }
    if tcu == cycles then .ok { c2 with tcu := 0 } else .ok c2
  | .ORA, .ImmediateAddressing, 1
  | .ORA, .ZeroPage, 2
  | .ORA, .ZeroPageIndexedWithX, 3
  | .ORA, .Absolute, 3
  | .ORA, .AbsoluteIndexedWithX, 3
  | .ORA, .AbsoluteIndexedWithY, 3
  | .ORA, .ZeroPageIndexedIndirect, 5
  | .ORA, .ZeroPageIndirectIndexedWithY, 4
  | .ORA, .ZeroPageIndirect, 4 =>
    let (v, c1) := c.fetch_operand
    let c2 := { c1 with a := c1.a ||| v }
    let c3 := c2.update_zero_flag (c2.a == 0)
    let c4 := c3.update_negative_flag c3.a
    .ok { c4 with tcu := 0 }
  | .PHA, .Stack, 1 => .ok { c.stack_push c.a with tcu := c.tcu + 1 }
  | .PHA, .Stack, 2 => .ok { c with tcu := 0 }
  | .PHP, .Stack, 1 =>
    .ok { c.stack_push (c.p ||| CPUFlag.BRK ||| CPUFlag.User) with tcu := c.tcu + 1 }
  | .PHP, .Stack, 2 => .ok { c with tcu := 0 }
  | .PHX, .Stack, 1 => .ok { c.stack_push c.x with tcu := c.tcu + 1 }
  | .PHX, .Stack, 2 => .ok { c with tcu := 0 }
  | .PHY, .Stack, 1 => .ok { c.stack_push c.y with tcu := c.tcu + 1 }
  | .PHY, .Stack, 2 => .ok { c with tcu := 0 }
  | .PLA, .Stack, 1 =>
    let (v, c1) := c.stack_pop
    .ok { c1 with a := v, tcu := c1.tcu + 1 }
  | .PLA, .Stack, 2 =>
    let c1 := c.update_zero_flag (c.a == 0)
    let c2 := c1.update_negative_flag c1.a
    .ok { c2 with tcu := c2.tcu + 1 }
  | .PLA, .Stack, 3 => .ok { c with tcu := 0 }
  | .PLP, .Stack, 1 =>
    let (v, c1) := c.stack_pop
    .ok { c1 with p := v, tcu := c1.tcu + 1 }
  | .PLP, .Stack, 2 => .ok { c with tcu := c.tcu + 1 }
  | .PLP, .Stack, 3 => .ok { c with tcu := 0 }
  | .PLX, .Stack, 1 =>
    let (v, c1) := c.stack_pop
    .ok { c1 with x := v, tcu := c1.tcu + 1 }
  | .PLX, .Stack, 2 =>
    let c1 := c.update_zero_flag (c.x == 0)
    let c2 := c1.update_negative_flag c1.x
    .ok { c2 with tcu := c2.tcu + 1 }
  | .PLX, .Stack, 3 => .ok { c with tcu := 0 }
  | .PLY, .Stack, 1 =>
    let (v, c1) := c.stack_pop
    .ok { c1 with y := v, tcu := c1.tcu + 1 }
  | .PLY, .Stack, 2 =>
    let c1 := c.update_zero_flag (c.y == 0)
    let c2 := c1.update_negative_flag c1.y
    .ok { c2 with tcu := c2.tcu + 1 }
  | .PLY, .Stack, 3 => .ok { c with tcu := 0 }
  | .RMB _, .ZeroPage, 2 =>
    .ok { c with temp8 := c.read c.temp16, tcu := c.tcu + 1 }
  | .RMB n, .ZeroPage, 3 =>
    .ok { c with temp8 := c.temp8 &&& not8 ((1 <<< n) % 256), tcu := c.tcu + 1 }
  | .RMB _, .ZeroPage, 4 =>
    .ok { c.write c.temp16 c.temp8 with tcu := 0 }
  | .ROL, .Accumulator, 1 =>
    let cb := c.p &&& 1
    let c1 := c.update_carry_flag (c.a &&& 0x80 == 0x80)
    let c2 := { c1 with a := (c1.a <<< 1 % 256) ||| cb }
    let c3 := c2.update_zero_flag (c2.a == 0)
    let c4 := c3.update_negative_flag c3.a
    .ok { c4 with tcu := 0 }
  | .ROL, .ZeroPage, 2
  | .ROL, .ZeroPageIndexedWithX, 3
  | .ROL, .Absolute, 3
  | .ROL, .AbsoluteIndexedWithX, 3 =>
    .ok { c with temp8 := c.read c.temp16, tcu := c.tcu + 1 }
  | .ROL, .ZeroPage, 3
  | .ROL, .ZeroPageIndexedWithX, 4
  | .ROL, .Absolute, 4
  | .ROL, .AbsoluteIndexedWithX, 4 =>
    let cb := c.p &&& 1
    let c1 := c.update_carry_flag (c.temp8 &&& 0x80 == 0x80)
    let c2 := { c1 with temp8 := (c1.temp8 <<< 1 % 256) ||| cb }
    let c3 := c2.update_zero_flag (c2.temp8 == 0)
    let c4 := c3.update_negative_flag c3.temp8
    .ok { c4 with tcu := c4.tcu + 1 }
  | .ROL, .AbsoluteIndexedWithX, 5 =>
    .ok { c with tcu := c.tcu + 1 }
  | .ROL, .ZeroPage, 4
  | .ROL, .ZeroPageIndexedWithX, 5
  | .ROL, .Absolute, 5
  | .ROL, .AbsoluteIndexedWithX, 6 =>
    .ok { c.write c.temp16 c.temp8 with tcu := 0 }
  | .ROR, .Accumulator, 1 =>
    let cb := c.p &&& 1
    let c1 := c.update_carry_flag (c.a &&& 0x01 == 0x01)
    let c2 := { c1 with a := (c1.a >>> 1) ||| (cb <<< 7) }
    let c3 := c2.update_zero_flag (c2.a == 0)
    let c4 := c3.update_negative_flag c3.a
    .ok { c4 with tcu := 0 }
  | .ROR, .ZeroPage, 2
  | .ROR, .ZeroPageIndexedWithX, 3
  | .ROR, .Absolute, 3
  | .ROR, .AbsoluteIndexedWithX, 3 =>
    .ok { c with temp8 := c.read c.temp16, tcu := c.tcu + 1 }
  | .ROR, .ZeroPage, 3
  | .ROR, .ZeroPageIndexedWithX, 4
  | .ROR, .Absolute, 4
  | .ROR, .AbsoluteIndexedWithX, 4 =>
    let cb := c.p &&& 1
    let c1 := c.update_carry_flag (c.temp8 &&& 0x01 == 0x01)
    let c2 := { c1 with temp8 := (c1.temp8 >>> 1) ||| (cb <<< 7) }
    let c3 := c2.update_zero_flag (c2.temp8 == 0)
    let c4 := c3.update_negative_flag c3.temp8
    .ok { c4 with tcu := c4.tcu + 1 }
  | .ROR, .AbsoluteIndexedWithX, 5 =>
    .ok { c with tcu := c.tcu + 1 }
  | .ROR, .ZeroPage, 4
  | .ROR, .ZeroPageIndexedWithX, 5
  | .ROR, .Absolute, 5
  | .ROR, .AbsoluteIndexedWithX, 6 =>
    .ok { c.write c.temp16 c.temp8 with tcu := 0 }
  | .RTI, .Stack, 1 =>
    let (v, c1) := c.stack_pop
    .ok { c1 with p := v, tcu := c1.tcu + 1 }
  | .RTI, .Stack, 2 => .ok { c with tcu := c.tcu + 1 }
  | .RTI, .Stack, 3 =>
    let (v, c1) := c.stack_pop
    .ok { c1 with pc := v, tcu := c1.tcu + 1 }
  | .RTI, .Stack, 4 => .ok { c with tcu := c.tcu + 1 }
  | .RTI, .Stack, 5 =>
    let (v, c1) := c.stack_pop
    .ok { c1 with pc := c1.pc ||| (v <<< 8), tcu := 0 }
  | .RTS, .Stack, 1 =>
    let (_, c1) := c.fetch
    .ok { c1 with tcu := c1.tcu + 1 }
  | .RTS, .Stack, 2 => .ok { c with tcu := c.tcu + 1 }
  | .RTS, .Stack, 3 =>
    let (v, c1) := c.stack_pop
    .ok { c1 with temp16 := v, tcu := c1.tcu + 1 }
  | .RTS, .Stack, 4 =>
    let (v, c1) := c.stack_pop
    .ok { c1 with temp16 := c1.temp16 ||| (v <<< 8), tcu := c1.tcu + 1 }
  | .RTS, .Stack, 5 =>
    let c1 := { c with pc := c.temp16 }
    let (_, c2) := c1.fetch
    .ok { c2 with tcu := 0 }
  | .SBC, .ImmediateAddressing, 1
  | .SBC, .ZeroPage, 2
  | .SBC, .ZeroPageIndexedWithX, 3
  | .SBC, .Absolute, 3
  | .SBC, .AbsoluteIndexedWithX, 3
  | .SBC, .AbsoluteIndexedWithY, 3
  | .SBC, .ZeroPageIndexedIndirect, 5
  | .SBC, .ZeroPageIndirectIndexedWithY, 4
  | .SBC, .ZeroPageIndirect, 4 =>
    let op1 := c.a
    if c.p &&& CPUFlag.Decimal == 0 then
      let (raw, c1) := c.fetch_operand
      let op2 := not8 raw
      let sum := (op1 + op2 + (c1.p &&& CPUFlag.Carry)) % 65536
      let c2 := { c1 with a := sum % 256 }
      let c3 := c2.update_zero_flag (c2.a == 0)
      let c4 := c3.update_negative_flag c3.a
      let c5 := c4.update_carry_flag (sum &&& 0x100 == 0x100)
      let c6 := c5.update_overflow_flag
        (((sum ^^^ op1) &&& (sum ^^^ op2)) &&& 0x80 == 0x80)
      .ok { c6 with tcu := 0 }
    else
      let (op2, c1) := c.fetch_operand
      let nc0 := (0x99 + 65536 - op2 % 65536) % 65536
      let nc1 := if nc0 &&& 0x0f > 9 then (nc0 + 0x06) % 65536 else nc0
      let nc := if nc1 >>> 4 > 9 then (nc1 + 0x60) % 65536 else nc1
      let carry_in := if c1.p &&& CPUFlag.Carry == 0 then 0x00 else 0x01
      let sum0 := ((op1 &&& 0x0f) + (nc &&& 0x0f) + carry_in) % 65536
      let sum1 := if sum0 > 9 then (sum0 + 0x06) % 65536 else sum0
      let sum2 := (sum1 + (op1 &&& 0xf0) + (nc &&& 0xf0)) % 65536
      let sum := if sum2 >>> 4 > 9 then (sum2 + 0x60) % 65536 else sum2
      let c2 := { c1 with a := sum &&& 0xff }
      let c3 := c2.update_overflow_flag
        (((sum ^^^ op1) &&& (sum ^^^ nc)) &&& 0x80 == 0x80)
      let c4 := c3.update_carry_flag (!(sum &&& 0xFF00 == 0))
      let c5 := c4.update_zero_flag (c4.a == 0)
      let c6 := c5.update_negative_flag c5.a
      .ok { c6 with tcu := c6.tcu + 1 }
  | .SBC, .ImmediateAddressing, 2
  | .SBC, .ZeroPage, 3
  | .SBC, .ZeroPageIndexedWithX, 4
  | .SBC, .Absolute, 4
  | .SBC, .AbsoluteIndexedWithX, 4
  | .SBC, .AbsoluteIndexedWithY, 4
  | .SBC, .ZeroPageIndexedIndirect, 6
  | .SBC, .ZeroPageIndirectIndexedWithY, 5
  | .SBC, .ZeroPageIndirect, 5 =>
    if c.p &&& CPUFlag.Decimal == 0 then .error .sbcExtra
    else .ok { c with tcu := 0 }
  | .SEC, .Implied, 1 => .ok { c.update_carry_flag true with tcu := 0 }
  | .SED, .Implied, 1 => .ok { c.update_decimal_flag true with tcu := 0 }
  | .SEI, .Implied, 1 => .ok { c.update_irqb_flag true with tcu := 0 }
  | .SMB _, .ZeroPage, 2 =>
    .ok { c with temp8 := c.read c.temp16, tcu := c.tcu + 1 }
  | .SMB n, .ZeroPage, 3 =>
    .ok { c with temp8 := c.temp8 ||| ((1 <<< n) % 256), tcu := c.tcu + 1 }
  | .SMB _, .ZeroPage, 4 =>
    .ok { c.write c.temp16 c.temp8 with tcu := 0 }
  | .STA, .AbsoluteIndexedWithX, 3
  | .STA, .AbsoluteIndexedWithY, 3
  | .STA, .ZeroPageIndirectIndexedWithY, 4 =>
    .ok { c with tcu := c.tcu + 1 }
  | .STA, .ZeroPage, 2
  | .STA, .ZeroPageIndexedWithX, 3
  | .STA, .Absolute, 3
  | .STA, .AbsoluteIndexedWithX, 4
  | .STA, .AbsoluteIndexedWithY, 4
  | .STA, .ZeroPageIndexedIndirect, 5
  | .STA, .ZeroPageIndirectIndexedWithY, 5
  | .STA, .ZeroPageIndirect, 4 =>
    .ok { c.write c.temp16 c.a with tcu := 0 }
  | .STP, .Implied, 1 => .ok { c with tcu := c.tcu + 1 }
  | .STP, .Implied, 2 => .ok { c with state := .Halt }
  | .STX, .ZeroPage, 2
  | .STX, .ZeroPageIndexedWithY, 3
  | .STX, .Absolute, 3 =>
    .ok { c.write c.temp16 c.x with tcu := 0 }
  | .STY, .ZeroPage, 2
  | .STY, .ZeroPageIndexedWithX, 3
  | .STY, .Absolute, 3 =>
    .ok { c.write c.temp16 c.y with tcu := 0 }
  | .STZ, .ZeroPage, 2
  | .STZ, .ZeroPageIndexedWithX, 3
  | .STZ, .Absolute, 3
  | .STZ, .AbsoluteIndexedWithX, 3 =>
    .ok { c.write c.temp16 0 with tcu := 0 }
  | .TAX, .Implied, 1 =>
    let c1 := { c with x := c.a }
    let c2 := c1.update_zero_flag (c1.x == 0)
    let c3 := c2.update_negative_flag c2.x
    .ok { c3 with tcu := 0 }
  | .TAY, .Implied, 1 =>
    let c1 := { c with y := c.a }
    let c2 := c1.update_zero_flag (c1.y == 0)
    let c3 := c2.update_negative_flag c2.y
    .ok { c3 with tcu := 0 }
  | .TRB, .ZeroPage, 2
  | .TRB, .Absolute, 3 =>
    .ok { c with temp8 := c.read c.temp16, tcu := c.tcu + 1 }
  | .TRB, .ZeroPage, 3
  | .TRB, .Absolute, 4 =>
    let c1 := c.update_zero_flag (c.temp8 &&& c.a == 0)
    .ok { c1 with temp8 := c1.temp8 &&& not8 c1.a, tcu := c1.tcu + 1 }
  | .TRB, .ZeroPage, 4
  | .TRB, .Absolute, 5 =>
    .ok { c.write c.temp16 c.temp8 with tcu := 0 }
  | .TSB, .ZeroPage, 2
  | .TSB, .Absolute, 3 =>
    .ok { c with temp8 := c.read c.temp16, tcu := c.tcu + 1 }
  | .TSB, .ZeroPage, 3
  | .TSB, .Absolute, 4 =>
    let c1 := c.update_zero_flag (c.temp8 &&& c.a == 0)
    .ok { c1 with temp8 := c1.temp8 ||| c1.a, tcu := c1.tcu + 1 }
  | .TSB, .ZeroPage, 4
  | .TSB, .Absolute, 5 =>
    .ok { c.write c.temp16 c.temp8 with tcu := 0 }
  | .TSX, .Implied, 1 =>
    let c1 := { c with x := c.s }
    let c2 := c1.update_zero_flag (c1.x == 0)
    let c3 := c2.update_negative_flag c2.x
    .ok { c3 with tcu := 0 }
  | .TXA, .Implied, 1 =>
    let c1 := { c with a := c.x }
    let c2 := c1.update_zero_flag (c1.a == 0)
    let c3 := c2.update_negative_flag c2.a
    .ok { c3 with tcu := 0 }
  | .TXS, .Implied, 1 => .ok { c with s := c.x, tcu := 0 }
  | .TYA, .Implied, 1 =>
    let c1 := { c with a := c.y }
    let c2 := c1.update_zero_flag (c1.a == 0)
    let c3 := c2.update_negative_flag c2.a
    .ok { c3 with tcu := 0 }
  | .WAI, .Implied, 1 => .ok { c with tcu := c.tcu + 1 }
  | .WAI, .Implied, 2 =>
    .ok { c with p := c.p ||| CPUFlag.BRK, state := .Wait, tcu := 0 }
  | _, .Absolute, 1
  | _, .AbsoluteIndexedIndirect, 1
  | _, .AbsoluteIndexedWithX, 1
  | _, .AbsoluteIndexedWithY, 1
  | _, .AbsoluteIndirect, 1
  | _, .ZeroPage, 1
  | _, .ZeroPageIndexedWithX, 1
  | _, .ZeroPageIndexedWithY, 1 =>
    let (v, c1) := c.fetch
    .ok { c1 with temp16 := v, tcu := c1.tcu + 1 }
  | _, .Absolute, 2
  | _, .AbsoluteIndirect, 2 =>
    let (v, c1) := c.fetch
    .ok { c1 with temp16 := c1.temp16 ||| (v <<< 8), tcu := c1.tcu + 1 }
  | _, .AbsoluteIndexedWithX, 2
  | _, .AbsoluteIndexedIndirect, 2 =>
    let (v, c1) := c.fetch
    let t := c1.temp16 ||| (v <<< 8)
    .ok { c1 with temp16 := (t + c1.x) % 65536, tcu := c1.tcu + 1 }
  | _, .AbsoluteIndexedWithY, 2 =>
    let (v, c1) := c.fetch
    let t := c1.temp16 ||| (v <<< 8)
    .ok { c1 with temp16 := (t + c1.y) % 65536, tcu := c1.tcu + 1 }
  | _, .ProgramCounterRelative, 2 =>
    .ok { c with pc := pc_offset c.pc c.temp8, tcu := 0 }
  | _, .ZeroPageIndexedWithX, 2 =>
    .ok { c with temp16 := (c.temp16 + c.x) % 0x100, tcu := c.tcu + 1 }
  | _, .ZeroPageIndexedWithY, 2 =>
    .ok { c with temp16 := (c.temp16 + c.y) % 0x100, tcu := c.tcu + 1 }
  | _, .ZeroPageIndexedIndirect, 1
  | _, .ZeroPageIndirect, 1
  | _, .ZeroPageIndirectIndexedWithY, 1 =>
    let (v, c1) := c.fetch
    .ok { c1 with temp8 := v, tcu := c1.tcu + 1 }
  | _, .ZeroPageIndexedIndirect, 2 =>
    .ok { c with temp8 := (c.temp8 + c.x) % 256, tcu := c.tcu + 1 }
  | _, .ZeroPageIndexedIndirect, 3
  | _, .ZeroPageIndirect, 2
  | _, .ZeroPageIndirectIndexedWithY, 2 =>
    .ok { c with temp16 := c.read c.temp8, tcu := c.tcu + 1 }
  | _, .ZeroPageIndexedIndirect, 4
  | _, .ZeroPageIndirect, 3 =>
    if c.temp8 + 1 < 256 then
      .ok { c with temp16 := c.temp16 ||| (c.read (c.temp8 + 1) <<< 8),
                   tcu := c.tcu + 1 }
    else
      .error .overflow8
  | _, .ZeroPageIndirectIndexedWithY, 3 =>
    if c.temp8 + 1 < 256 then
      let t := c.temp16 ||| (c.read (c.temp8 + 1) <<< 8)
      .ok { c with temp16 := (t + c.y) % 65536, tcu := c.tcu + 1 }
    else
      .error .overflow8
  | _, _, _ => .error .unimpl

/-- One clock tick of the CPU (`W65C02S::cycle` in `components/cpu.rs`):
the `Init` reset sequence, the `Run` interpreter, the `Wait` wake-up check,
and the `Halt` no-op. -/
def cycle (c : W65C02S) : Except CErr W65C02S :=
  match c.state with
  | .Init k =>
    match k with
    | 5 => .ok { c with pc := c.read 0xFFFC, state := .Init (k + 1) }
    | 6 => .ok { c with pc := c.pc ||| (c.read 0xFFFD <<< 8), state := .Run }
    | _ => .ok { c with state := .Init (k + 1) }
  | .Run => run_arm c
  | .Wait =>
    if (c.p &&& CPUFlag.IRQB == 0) && c.interrupt then
      .ok { c with ir := (.BRK, .Implied), tcu := 1, state := .Run }
    else
      .ok c
  | .Halt => .ok c

/-- `is_halted` of the CPU. -/
def is_halted (c : W65C02S) : Bool :=
  match c.state with
  | .Halt => true
  | _ => false

/-- Freshly powered-on CPU over a given bus (`W65C02S::new`). -/
def cpu_new (mem : Nat → Nat) : W65C02S :=
  { state := .Init 0
    ir := (.NOP 0 0, .Implied)
    tcu := 0
    a := 0
    x := 0
    y := 0
    p := 0
    pc := 0
    s := 0
    temp8 := 0
    temp16 := 0
    interrupt := false
    mem := mem }

/-- Iterate `cycle`, propagating the first error. -/
def runCycles (c : W65C02S) : Nat → Except CErr W65C02S
  | 0 => .ok c
  | n + 1 =>
    match cycle c with
    | .ok c1 => runCycles c1 n
    | .error e => .error e

/-- The CPU-test harness memory (`SystemBus::new` in
`system/cpu_test_system.rs`): a RAM image with the reset vector at
`0xFFFC`/`0xFFFD` overwritten by the 16-bit entry address, little-endian. -/
def systemBusNew (img : Nat → Nat) (entry : Nat) : Nat → Nat := fun a =>
  if a = 0xFFFC then entry &&& 0xFF
  else if a = 0xFFFD then (entry >>> 8) &&& 0xFF
  else img a

/-! ## Peripheral adapter (`component/mos6522.rs`) -/

/-- Interrupt-flag bit positions (`Interrupts` in `component/mos6522.rs`). -/
def Interrupts.CA2 : Nat := 0x01

/-- CA1 interrupt bit. -/
def Interrupts.CA1 : Nat := 0x02

/-- Shift-register interrupt bit. -/
def Interrupts.SR : Nat := 0x04

/-- CB2 interrupt bit. -/
def Interrupts.CB2 : Nat := 0x08

/-- CB1 interrupt bit. -/
def Interrupts.CB1 : Nat := 0x10

/-- Timer-2 interrupt bit. -/
def Interrupts.T2 : Nat := 0x20

/-- Timer-1 interrupt bit. -/
def Interrupts.T1 : Nat := 0x40

/-- Summary IRQ bit. -/
def Interrupts.IRQ : Nat := 0x80

/-- Adapter state (`MOS6522` in `component/mos6522.rs`).  The `Ports`
collaborator is abstracted by the byte values its side-effect-free
`peek_a`/`peek_b`/`read_a`/`read_b` pin reads return (`portsA`, `portsB`);
the downstream effects of `write_a`/`write_b` live outside this model. -/
structure MOS6522 where
  ifr : Nat
  ier : Nat
  acr : Nat
  pcr : Nat
  ira : Nat
  ora : Nat
  ddra : Nat
  irb : Nat
  orb : Nat
  ddrb : Nat
  t1c : Nat
  t1l : Nat
  t2c : Nat
  t2l : Nat
  sr : Nat
  ca1 : Bool
  ca2 : Bool
  cb1 : Bool
  cb2 : Bool
  portsA : Nat
  portsB : Nat

/-- Fresh adapter (`MOS6522::new`): every register zero. -/
def mos6522_new (pa pb : Nat) : MOS6522 :=
  { ifr := 0, ier := 0, acr := 0, pcr := 0
    ira := 0, ora := 0, ddra := 0
    irb := 0, orb := 0, ddrb := 0
    t1c := 0, t1l := 0, t2c := 0, t2l := 0, sr := 0
    ca1 := false, ca2 := false, cb1 := false, cb2 := false
    portsA := pa, portsB := pb }

/-- `MOS6522::set_interrupt`: raise flag `i` and the summary bit 0x80. -/
def mos6522_set_interrupt (m : MOS6522) (i : Nat) : MOS6522 :=
  { m with ifr := (m.ifr ||| i) ||| 0x80 }

/-- `MOS6522::clear_interrupt`: clear flag `i`; if only the summary bit is
left, clear the whole register. -/
def mos6522_clear_interrupt (m : MOS6522) (i : Nat) : MOS6522 :=
  let f := m.ifr &&& not8 i
  { m with ifr := if f = 0x80 then 0 else f }

/-- `MOS6522::peek`, register-selected by the local offset.  `peek` takes
`&self` in the source; its arms are nevertheless translated in the same
state-passing style as `read`, so that freedom from mutation is a provable
statement rather than a typing convention.  `none` models the
`unimplemented!` registers and the failing `try_from` on offsets above 0xF. -/
def mos6522_peek (m : MOS6522) (addr : Nat) : Option (Nat × MOS6522) :=
  match addr with
  | 0x0 => some ((m.orb &&& m.ddrb) ||| (m.portsB &&& not8 m.ddrb), m)
  | 0x1 => none
  | 0x2 => some (m.ddrb, m)
  | 0x3 => some (m.ddra, m)
  | 0x4 => some (m.t1c &&& 0x00ff, m)
  | 0x5 => some ((m.t1c >>> 8) % 256, m)
  | 0x6 => some (m.t1l &&& 0x00ff, m)
  | 0x7 => some ((m.t1l >>> 8) % 256, m)
  | 0x8 => none
  | 0x9 => none
  | 0xA => none
  | 0xB => none
  | 0xC => none
  | 0xD => some (m.ifr, m)
  | 0xE => some (m.ier, m)
  | 0xF => some ((m.ora &&& m.ddra) ||| (m.portsA &&& not8 m.ddra), m)
  | _ => none

/-- `MOS6522::read`: like `peek` but with the documented side effects
(port-B pin sampling when latching is disabled, and the timer-1 interrupt
flag clear on `T1C_L`/`T1L_L`). -/
def mos6522_read (m : MOS6522) (addr : Nat) : Option (Nat × MOS6522) :=
  match addr with
  | 0x0 =>
    if !(m.acr &&& 0x02 == 0x02) then
      let m1 := { m with irb := m.portsB }
      some (m1.irb, m1)
    else
      some (m.irb, m)
  | 0x1 => none
  | 0x2 => some (m.ddrb, m)
  | 0x3 => some (m.ddra, m)
  | 0x4 =>
    let m1 := mos6522_clear_interrupt m Interrupts.T1
    some (m1.t1c &&& 0x00ff, m1)
  | 0x5 => some ((m.t1c >>> 8) % 256, m)
  | 0x6 =>
    let m1 := mos6522_clear_interrupt m Interrupts.T1
    some (m1.t1l &&& 0x00ff, m1)
  | 0x7 => some ((m.t1l >>> 8) % 256, m)
  | 0x8 => none
  | 0x9 => none
  | 0xA => none
  | 0xB => none
  | 0xC => none
  | 0xD => some (m.ifr, m)
  | 0xE => some (m.ier, m)
  | 0xF => some ((m.ora &&& m.ddra) ||| (m.portsA &&& not8 m.ddra), m)
  | _ => none

/-- `MOS6522::write`.  Port writes update the output registers; their
propagation through `Ports::write_a`/`write_b` is outside this model. -/
def mos6522_write (m : MOS6522) (addr data : Nat) : Option MOS6522 :=
  match addr with
  | 0x0 => some { m with orb := data &&& m.ddrb }
  | 0x1 => none
  | 0x2 => some { m with ddrb := data }
  | 0x3 => some { m with ddra := data }
  | 0x4 => some { m with t1l := (m.t1l &&& 0xff00) ||| (data % 256) }
  | 0x5 =>
    let m1 := { m with t1l := (m.t1l &&& 0x00ff) ||| ((data % 256) <<< 8) }
    let m2 := { m1 with t1c := m1.t1l }
    some (mos6522_clear_interrupt m2 Interrupts.T1)
  | 0x6 => some { m with t1l := (m.t1l &&& 0xff00) ||| (data % 256) }
  | 0x7 =>
    let m1 := { m with t1l := (m.t1l &&& 0x00ff) ||| ((data % 256) <<< 8) }
    some (mos6522_clear_interrupt m1 Interrupts.T1)
  | 0x8 => none
  | 0x9 => none
  | 0xA => none
  | 0xB => some { m with acr := data }
  | 0xC => none
  | 0xD => some { m with ifr := m.ifr &&& not8 data }
  | 0xE => some { m with ier := data }
  | 0xF => some { m with ora := data &&& m.ddra }
  | _ => none

/-- `MOS6522::cycle`: advance timer 1 one tick (raising T1 and reloading in
free-run mode when it expires) and return the IRQ line
`(self.ifr.get() & self.ier) != 0`.  `none` models the `unimplemented!`
PB7 timer output modes. -/
def mos6522_cycle (m : MOS6522) : Option (MOS6522 × Bool) :=
  let step : Option MOS6522 :=
    if m.t1c > 0 then
      some { m with t1c := m.t1c - 1 }
    else
      let m1 := mos6522_set_interrupt m Interrupts.T1
      match m1.acr >>> 6 with
      | 0 => some m1
      | 1 => some { m1 with t1c := m1.t1l }
      | _ => none
  step.map fun m2 => (m2, !(m2.ifr &&& m2.ier == 0))

/-! ## Peripheral adapter, earlier generation (`components/periph.rs`) -/

/-- Adapter state (`W65C22` in `components/periph.rs`).  The `port_a` /
`port_b` attachment lists are not modelled; the operations embedded here
(timer, interrupt flags, IRQ line) never consult them. -/
structure W65C22 where
  orb : Nat
  ora : Nat
  ddrb : Nat
  ddra : Nat
  t1c : Nat
  t1l : Nat
  t2c : Nat
  sr : Nat
  acr : Nat
  pcr : Nat
  ifr : Nat
  ier : Nat

/-- `W65C22::new`: all registers zero. -/
def w65c22_new : W65C22 :=
  { orb := 0, ora := 0, ddrb := 0, ddra := 0
    t1c := 0, t1l := 0, t2c := 0, sr := 0
    acr := 0, pcr := 0, ifr := 0, ier := 0 }

/-- `W65C22::set_interrupt`. -/
def w65c22_set_interrupt (w : W65C22) (i : Nat) : W65C22 :=
  { w with ifr := (w.ifr ||| i) ||| 0x80 }

/-- `W65C22::clear_interrupt`. -/
def w65c22_clear_interrupt (w : W65C22) (i : Nat) : W65C22 :=
  let f := w.ifr &&& not8 i
  { w with ifr := if f = 0x80 then 0 else f }

/-- Timer tick of the earlier-generation adapter
(`clock::Attachment::cycle` for `W65C22`). -/
def w65c22_cycle (w : W65C22) : Option W65C22 :=
  if w.t1c > 0 then
    some { w with t1c := w.t1c - 1 }
  else
    let w1 := w65c22_set_interrupt w 0x40
    match w1.acr >>> 6 with
    | 0 => some w1
    | 1 => some { w1 with t1c := w1.t1l }
    | _ => none

/-- `W65C22::has_interrupt`: the IRQ line read by the system after each
tick, `self.ifr & self.ier != 0`. -/
def has_interrupt (w : W65C22) : Bool :=
  !(w.ifr &&& w.ier == 0)

/-! ## SNES controller (`component/snes_controller.rs`) -/

/-- Controller state: ephemeral `state`, sampled `latch`, and the `shift`
register (all 8-bit, active-low). -/
structure SNESController where
  state : Nat
  latch : Nat
  shift : Nat

/-- `SNESController::new`: everything released (all bits set). -/
def snes_new : SNESController :=
  { state := 255, latch := 255, shift := 255 }

/-- `on_press`: clear the button's bit in `state` and in `latch`. -/
def on_press (c : SNESController) (btn : Nat) : SNESController :=
  { c with state := c.state &&& not8 ((1 <<< btn) % 256)
           latch := c.latch &&& not8 ((1 <<< btn) % 256) }

/-- `on_release`: set the button's bit in `state`. -/
def on_release (c : SNESController) (btn : Nat) : SNESController :=
  { c with state := c.state ||| ((1 <<< btn) % 256) }

/-- `SNESController::peek` and `SNESController::read`: the low bit of the
shift register. -/
def snes_read (c : SNESController) : Nat :=
  c.shift &&& 1

/-- `SNESController::write`: on `latch` high transfer `latch` to `shift`
and sample `state` into `latch`; on `clk` high shift right by one. -/
def snes_write (c : SNESController) (latch clk : Bool) : SNESController :=
  let c1 :=
    if latch then { c with shift := c.latch, latch := c.state } else c
  if clk then { c1 with shift := c1.shift >>> 1 } else c1

/-! ## LCD controller (`components/display.rs`) -/

/-- LCD run mode (`State` in `components/display.rs`). -/
inductive LcdState where
  | Idle
  | Busy (n : Nat)
deriving DecidableEq, Repr

/-- LCD register selector (`RegisterSelector` in `components/display.rs`). -/
inductive RegSel where
  | Instruction
  | Data
deriving DecidableEq, Repr

/-- LCD state (`HD44780U`).  The constant `charset` glyph table is omitted:
no operation embedded here consults it. -/
structure HD44780U where
  state : LcdState
  addr : Nat
  line1 : List Nat
  line2 : List Nat
  updated : Bool
deriving Repr

/-- `HD44780U::new`: two 40-byte lines of spaces, address 0, power-on busy
delay of 150 ticks. -/
def hd_new : HD44780U :=
  { state := .Busy 150
    addr := 0
    line1 := List.replicate 40 32
    line2 := List.replicate 40 32
    updated := false }

/-- `HD44780U::write`.  Rust indexes `self.line1[offset]`, which panics when
`offset` is out of bounds; the embedding guards that indexing and returns
`none` exactly there.  The `u8` address increment cannot wrap on the values
this state machine produces, so it is written as a plain successor. -/
def hd_write (d : HD44780U) (addr : RegSel) (val : Nat) : Option HD44780U :=
  match addr with
  | .Instruction =>
    let d1 :=
      if val &&& 0x80 == 0x80 then
        { d with addr := (val &&& 0x7f) % 80 }
      else if val &&& 0x40 == 0x40 then d
      else if val &&& 0x20 == 0x20 then d
      else if val &&& 0x10 == 0x10 then d
      else if val &&& 0x08 == 0x08 then d
      else if val &&& 0x04 == 0x04 then d
      else if val &&& 0x02 == 0x02 then d
      else if val &&& 0x01 == 0x01 then
        { d with addr := 0
                 line1 := List.replicate 40 32
                 line2 := List.replicate 40 32 }
      else d
    some { d1 with state := .Busy 37 }
  | .Data =>
    let offset := d.addr &&& 0x3F
    let stored : Option HD44780U :=
      if d.addr &&& 0x40 == 0 then
        if offset < d.line1.length then
          some { d with line1 := d.line1.set offset val }
        else none
      else
        if offset < d.line2.length then
          some { d with line2 := d.line2.set offset val }
        else none
    stored.map fun d1 =>
      let a1 := d1.addr + 1
      let a2 :=
        if a1 &&& 0x40 == 0 then
          if a1 > 40 then 0x40 else a1
        else
          if a1 > 0x40 + 40 then 0x00 else a1
      { d1 with addr := a2, state := .Busy 37, updated := true }

/-- `HD44780U::peek` (same value as `read`): the address counter with the
busy bit for the instruction register, the DDRAM byte under the cursor for
the data register (guarded where Rust indexing would panic). -/
def hd_peek (d : HD44780U) (addr : RegSel) : Option Nat :=
  match addr with
  | .Instruction =>
    let result := d.addr
    some (match d.state with
          | .Busy _ => result ||| 0x80
          | .Idle => result)
  | .Data =>
    let offset := d.addr &&& 0x3F
    if d.addr &&& 0x40 == 0 then
      if h : offset < d.line1.length then some (d.line1.get ⟨offset, h⟩)
      else none
    else
      if h : offset < d.line2.length then some (d.line2.get ⟨offset, h⟩)
      else none

/-- LCD busy tick (`clock::Attachment::cycle` for `HD44780U`). -/
def hd_cycle (d : HD44780U) : HD44780U :=
  { d with state :=
      match d.state with
      | .Idle => .Idle
      | .Busy 0 => .Idle
      | .Busy c => .Busy (c - 1) }

/-! ## Breadboard system bus (`system/breadboard_system.rs`) -/

/-- ROM selector `(mask, value)`. -/
def ROM_SELECTOR : Nat × Nat := (0x8000, 0x8000)

/-- RAM selector `(mask, value)`. -/
def RAM_SELECTOR : Nat × Nat := (0xC000, 0x0000)

/-- Peripheral-adapter selector `(mask, value)`. -/
def PER_SELECTOR : Nat × Nat := (0xFFF0, 0x6000)

/-- The three devices behind the breadboard bus. -/
inductive BBDevice where
  | rom
  | ram
  | per
deriving DecidableEq, Repr

/-- The routing performed by `SystemBus::peek`/`read`: try ROM, then RAM,
then the adapter, each by `(addr & mask) == value`, presenting
`addr & !mask` to the matched device; unmatched addresses panic (`none`). -/
def bus_route (addr : Nat) : Option (BBDevice × Nat) :=
  if addr &&& ROM_SELECTOR.1 == ROM_SELECTOR.2 then
    some (.rom, addr &&& not16 ROM_SELECTOR.1)
  else if addr &&& RAM_SELECTOR.1 == RAM_SELECTOR.2 then
    some (.ram, addr &&& not16 RAM_SELECTOR.1)
  else if addr &&& PER_SELECTOR.1 == PER_SELECTOR.2 then
    some (.per, addr &&& not16 PER_SELECTOR.1)
  else
    none

/-- The routing performed by `SystemBus::write`, transcribed exactly: the
ROM and RAM arms mask with the complement of the selector *value*
(`!SELECTOR.1` in the Rust source) instead of the mask. -/
def bus_write_route (addr : Nat) : Option (BBDevice × Nat) :=
  if addr &&& ROM_SELECTOR.1 == ROM_SELECTOR.2 then
    some (.rom, addr &&& not16 ROM_SELECTOR.2)
  else if addr &&& RAM_SELECTOR.1 == RAM_SELECTOR.2 then
    some (.ram, addr &&& not16 RAM_SELECTOR.2)
  else if addr &&& PER_SELECTOR.1 == PER_SELECTOR.2 then
    some (.per, addr &&& not16 PER_SELECTOR.1)
  else
    none

/-- How many of the three selectors match an address. -/
def match_count (addr : Nat) : Nat :=
  (if addr &&& ROM_SELECTOR.1 == ROM_SELECTOR.2 then 1 else 0) +
  (if addr &&& RAM_SELECTOR.1 == RAM_SELECTOR.2 then 1 else 0) +
  (if addr &&& PER_SELECTOR.1 == PER_SELECTOR.2 then 1 else 0)

/-- Breadboard bus state for the peek path: ROM and RAM as byte maps
(their `peek` takes `&self`), the adapter as a `MOS6522`. -/
structure SysBus where
  per : MOS6522
  ram : Nat → Nat
  rom : Nat → Nat

/-- `SystemBus::peek` of the breadboard system, in the same state-passing
style as the adapter's `peek`: ROM, RAM and adapter are tried in source
order and the device sees `addr & !mask`. -/
def sys_peek (b : SysBus) (addr : Nat) : Option (Nat × SysBus) :=
  if addr &&& ROM_SELECTOR.1 == ROM_SELECTOR.2 then
    some (b.rom (addr &&& not16 ROM_SELECTOR.1) % 256, b)
  else if addr &&& RAM_SELECTOR.1 == RAM_SELECTOR.2 then
    some (b.ram (addr &&& not16 RAM_SELECTOR.1) % 256, b)
  else if addr &&& PER_SELECTOR.1 == PER_SELECTOR.2 then
    (mos6522_peek b.per (addr &&& not16 PER_SELECTOR.1)).map
      fun r => (r.1, { b with per := r.2 })
  else
    none

/-! ## Derived definitions used by the claims -/

/-- The nine `(addressing mode, tcu)` pairs at which the ADC arm of `cycle`
performs its arithmetic (the heads of its first group of match arms). -/
def is_adc_exec (m : AddressMode) (t : Nat) : Bool :=
  match m, t with
  | .ImmediateAddressing, 1 => true
  | .ZeroPage, 2 => true
  | .ZeroPageIndexedWithX, 3 => true
  | .Absolute, 3 => true
  | .AbsoluteIndexedWithX, 3 => true
  | .AbsoluteIndexedWithY, 3 => true
  | .ZeroPageIndexedIndirect, 5 => true
  | .ZeroPageIndirectIndexedWithY, 4 => true
  | .ZeroPageIndirect, 4 => true
  | _, _ => false

/-- The operand byte the ADC arm adds (`fetch_operand`): the immediate byte
at `pc` under immediate addressing, the byte at `temp16` otherwise. -/
def adc_operand (c : W65C02S) : Nat :=
  if c.ir.2 = AddressMode.ImmediateAddressing then c.mem c.pc % 256
  else c.mem c.temp16 % 256

/-- The distinct `(bytes, cycles)` parameters of the NOP opcodes in the
decode table. -/
def nop_pair (b cyc : Nat) : Bool :=
  match b, cyc with
  | 1, 1 => true
  | 1, 2 => true
  | 2, 2 => true
  | 2, 3 => true
  | 2, 4 => true
  | 3, 4 => true
  | 3, 8 => true
  | _, _ => false

/-- Ticks a decoded NOP variant consumes from its opcode fetch until `tcu`
returns to 0: the `(1,1)` variants complete on the fetch tick itself, all
others take `cycles + 1` ticks because the NOP arm resets `tcu` on the tick
whose *old* `tcu` equals `cycles`. -/
def nop_ticks (b cyc : Nat) : Nat :=
  if b = 1 ∧ cyc = 1 then 1 else cyc + 1

/-- `n` consecutive Data-register writes (of byte 0x41) to the LCD. -/
def hd_write_data_n : Nat → HD44780U → Option HD44780U
  | 0, d => some d
  | n + 1, d =>
    match hd_write d .Data 0x41 with
    | some d1 => hd_write_data_n n d1
    | none => none

/-- Concrete CPU state about to execute the ADC arm of `ADC #$50` with
`A = 0x50` and all flags clear. -/
def c1w : W65C02S :=
  ⟨.Run, (.ADC, .ImmediateAddressing), 1, 0x50, 0, 0, 0, 0x200, 0xFF, 0, 0, false, fun _ => 0x50⟩

/-- Concrete CPU state about to fetch opcode `0xEA` (`NOP`, 1 byte /
2 declared cycles) from a memory filled with `0xEA`. -/
def c2c : W65C02S :=
  ⟨.Run, (.NOP 1 2, .Implied), 0, 0, 0, 0, 0, 0, 0, 0, 0, false, fun _ => 0xEA⟩

/-- RAM image for the reset-vector test: `0xEA` everywhere. -/
def c3_img : Nat → Nat := fun _ => 0xEA

/-- RAM image executing `LDA ($FF)` (opcode `0xB2`, zero-page pointer byte
`0xFF`) at the reset entry `0x0400`. -/
def c9_img : Nat → Nat :=
  fun a => if a = 0x0400 then 0xB2 else if a = 0x0401 then 0xFF else 0

/-- Freshly reset CPU over the `c9_img` harness bus with entry `0x0400`. -/
def c9_cpu : W65C02S := cpu_new (systemBusNew c9_img 0x0400)

/-- Adapter state with only the summary bit set in both IFR and IER. -/
def c5_state : W65C22 := { w65c22_new with ifr := 0x80, ier := 0x80 }

/-- The adapter state one `cycle()` after reset (timer 1 underflows at 0 and
raises its interrupt). -/
def c4_m1 : MOS6522 :=
  match mos6522_cycle (mos6522_new 0 0) with
  | some r => r.1
  | none => mos6522_new 0 0


/-! ## Shared lemmas -/

/-- `BEq` on two `NOP` constructors reduces to `BEq` of their parameters. -/
@[simp]
theorem beq_nop (b1 c1 b2 c2 : Nat) :
    (Instruction.NOP b1 c1 == Instruction.NOP b2 c2) = (b1 == b2 && c1 == c2) := rfl

/-- Peeling one successful tick off the front of `runCycles`. -/
theorem runCycles_cons (c c1 : W65C02S) (n : Nat) (h : cycle c = .ok c1) :
    runCycles c (n + 1) = runCycles c1 n := by
  simp [runCycles, h]

/-- Peeling one tick off the back of `runCycles`. -/
theorem runCycles_succ_back (c : W65C02S) (n : Nat) :
    runCycles c (n + 1) =
      match runCycles c n with
      | .ok c1 => cycle c1
      | .error e => .error e := by
  induction n generalizing c with
  | zero =>
      simp only [runCycles]
      cases cycle c <;> rfl
  | succ k ih =>
      have hL : runCycles c (k + 1 + 1) =
          match cycle c with
          | .ok c1 => runCycles c1 (k + 1)
          | .error e => .error e := rfl
      have hR : runCycles c (k + 1) =
          match cycle c with
          | .ok c1 => runCycles c1 k
          | .error e => .error e := rfl
      rw [hL, hR]
      cases h : cycle c with
      | ok c1 => simp only [ih c1]
      | error e => rfl

/-- Bit `i < 8` of `flag_put`: the written bit where the mask has a set bit,
the old bit elsewhere. -/
theorem flag_put_testBit (p m : Nat) (b : Bool) (i : Nat) (hi : i < 8) :
    (flag_put p m b).testBit i = if m.testBit i then b else p.testBit i := by
  unfold flag_put not8
  cases b with
  | true =>
      simp only [if_true]
      by_cases h : m.testBit i <;> simp [Nat.testBit_or, h]
  | false =>
      rw [if_neg (by simp)]
      rw [Nat.testBit_and, Nat.testBit_xor,
        show (0xFF : Nat) = 2 ^ 8 - 1 from rfl, Nat.testBit_two_pow_sub_one]
      by_cases h : m.testBit i <;> simp [h, hi]

/-- Testing a single-bit mask with `== mask` is testing the bit. -/
theorem land_pow_beq (x i : Nat) : ((x &&& 2 ^ i == 2 ^ i) : Bool) = x.testBit i := by
  rw [Nat.and_two_pow]
  by_cases h : x.testBit i <;> simp [h, (Nat.two_pow_pos i).ne]

/-- Testing a single-bit mask with `≠ 0` is testing the bit. -/
theorem testBit_iff_land_ne (x i : Nat) : x.testBit i = true ↔ x &&& 2 ^ i ≠ 0 := by
  rw [Nat.and_two_pow]
  by_cases h : x.testBit i <;> simp [h, (Nat.two_pow_pos i).ne']

/-- A nonzero conjunction of bytes has a common set bit below 8. -/
theorem land_ne_zero_iff (x y : Nat) (hx : x < 256) :
    x &&& y ≠ 0 ↔ ∃ i < 8, x.testBit i ∧ y.testBit i := by
  constructor
  · intro h
    obtain ⟨i, hi, _⟩ := Nat.exists_most_significant_bit h
    rw [Nat.testBit_and, Bool.and_eq_true] at hi
    obtain ⟨h1, h2⟩ := hi
    refine ⟨i, ?_, h1, h2⟩
    by_contra hge
    push_neg at hge
    have hlt : x < 2 ^ i :=
      lt_of_lt_of_le hx (Nat.pow_le_pow_right (by norm_num : 0 < 2) hge)
    rw [Nat.testBit_lt_two_pow hlt] at h1
    exact absurd h1 (by simp)
  · rintro ⟨i, _, h1, h2⟩
    intro h0
    have hb : (x &&& y).testBit i = true := by rw [Nat.testBit_and, h1, h2]; rfl
    rw [h0] at hb
    simp [Nat.zero_testBit] at hb

/-- Bitwise-and against an aligned mask splits off the high part. -/
theorem and_mul_pow_two (k q r m : Nat) (hr : r < 2 ^ k) :
    (2 ^ k * q + r) &&& (2 ^ k * m) = 2 ^ k * (q &&& m) := by
  have hmul : ∀ (x : Nat) (j : Nat),
      (2 ^ k * x).testBit j = if j < k then false else x.testBit (j - k) := by
    intro x j
    have h := Nat.testBit_mul_pow_two_add (a := x) (b := 0) (i := k)
      (Nat.two_pow_pos k) j
    simpa [Nat.zero_testBit] using h
  apply Nat.eq_of_testBit_eq
  intro j
  rw [Nat.testBit_and, Nat.testBit_mul_pow_two_add q hr j, hmul m j, hmul (q &&& m) j]
  by_cases hj : j < k <;> simp [hj, Nat.testBit_and]

/-- The ROM selector mask as an arithmetic residue. -/
theorem char_rom (a : Nat) : a &&& 0x8000 = 32768 * (a / 32768 % 2) := by
  have h := and_mul_pow_two 15 (a / 2 ^ 15) (a % 2 ^ 15) 1 (Nat.mod_lt a (Nat.two_pow_pos 15))
  rw [Nat.div_add_mod] at h
  norm_num at h
  rw [show (32768 : Nat) = 2 ^ 15 by norm_num] at h ⊢
  rw [h]

/-- The RAM selector mask as an arithmetic residue. -/
theorem char_ram (a : Nat) : a &&& 0xC000 = 16384 * (a / 16384 % 4) := by
  have h := and_mul_pow_two 14 (a / 2 ^ 14) (a % 2 ^ 14) 3 (Nat.mod_lt a (Nat.two_pow_pos 14))
  rw [Nat.div_add_mod] at h
  norm_num at h
  rw [show (16384 : Nat) = 2 ^ 14 by norm_num] at h ⊢
  rw [h]
  congr 1
  rw [show (3 : Nat) = 2 ^ 2 - 1 by norm_num, Nat.and_pow_two_sub_one_eq_mod]

/-- The adapter selector mask as an arithmetic residue. -/
theorem char_per (a : Nat) : a &&& 0xFFF0 = 16 * (a / 16 % 4096) := by
  have h := and_mul_pow_two 4 (a / 2 ^ 4) (a % 2 ^ 4) 4095 (Nat.mod_lt a (Nat.two_pow_pos 4))
  rw [Nat.div_add_mod] at h
  norm_num at h
  rw [show (16 : Nat) = 2 ^ 4 by norm_num] at h ⊢
  rw [h]
  congr 1
  rw [show (4095 : Nat) = 2 ^ 12 - 1 by norm_num, Nat.and_pow_two_sub_one_eq_mod]

/-- Masking a 16-bit value with `0xFFFF` is the identity. -/
theorem char_mod16 (a : Nat) (h : a < 65536) : a &&& 0xFFFF = a := by
  rw [show (0xFFFF : Nat) = 2 ^ 16 - 1 by norm_num, Nat.and_pow_two_sub_one_eq_mod,
    Nat.mod_eq_of_lt h]

/-- Masking a 14-bit value with `0x3FFF` is the identity. -/
theorem char_mod14 (a : Nat) (h : a < 16384) : a &&& 0x3FFF = a := by
  rw [show (0x3FFF : Nat) = 2 ^ 14 - 1 by norm_num, Nat.and_pow_two_sub_one_eq_mod,
    Nat.mod_eq_of_lt h]

theorem adc_binary_post (a op p : Nat) (ha : a < 256) (hop : op < 256) (hp : p < 256) :
    ((a + op + (p &&& CPUFlag.Carry)) % 65536 % 256 = (a + op + (p &&& CPUFlag.Carry)) % 256) ∧
    ((flag_put (flag_put (flag_put (flag_put p CPUFlag.Zero
          (((a + op + (p &&& CPUFlag.Carry)) % 65536) % 256 == 0))
        CPUFlag.Negative
          (((a + op + (p &&& CPUFlag.Carry)) % 65536) % 256 &&& 0x80 == 0x80))
      CPUFlag.Carry
        (((a + op + (p &&& CPUFlag.Carry)) % 65536) &&& 0x100 == 0x100))
    CPUFlag.Overflow
      (((((a + op + (p &&& CPUFlag.Carry)) % 65536) ^^^ a) &&&
        (((a + op + (p &&& CPUFlag.Carry)) % 65536) ^^^ op)) &&& 0x80 == 0x80)).testBit 0 =
      (a + op + (p &&& CPUFlag.Carry)).testBit 8) ∧
    ((flag_put (flag_put (flag_put (flag_put p CPUFlag.Zero
          (((a + op + (p &&& CPUFlag.Carry)) % 65536) % 256 == 0))
        CPUFlag.Negative
          (((a + op + (p &&& CPUFlag.Carry)) % 65536) % 256 &&& 0x80 == 0x80))
      CPUFlag.Carry
        (((a + op + (p &&& CPUFlag.Carry)) % 65536) &&& 0x100 == 0x100))
    CPUFlag.Overflow
      (((((a + op + (p &&& CPUFlag.Carry)) % 65536) ^^^ a) &&&
        (((a + op + (p &&& CPUFlag.Carry)) % 65536) ^^^ op)) &&& 0x80 == 0x80)).testBit 1 = true ↔
      (a + op + (p &&& CPUFlag.Carry)) % 65536 % 256 = 0) ∧
    ((flag_put (flag_put (flag_put (flag_put p CPUFlag.Zero
          (((a + op + (p &&& CPUFlag.Carry)) % 65536) % 256 == 0))
        CPUFlag.Negative
          (((a + op + (p &&& CPUFlag.Carry)) % 65536) % 256 &&& 0x80 == 0x80))
      CPUFlag.Carry
        (((a + op + (p &&& CPUFlag.Carry)) % 65536) &&& 0x100 == 0x100))
    CPUFlag.Overflow
      (((((a + op + (p &&& CPUFlag.Carry)) % 65536) ^^^ a) &&&
        (((a + op + (p &&& CPUFlag.Carry)) % 65536) ^^^ op)) &&& 0x80 == 0x80)).testBit 7 =
      ((a + op + (p &&& CPUFlag.Carry)) % 65536 % 256).testBit 7) ∧
    ((flag_put (flag_put (flag_put (flag_put p CPUFlag.Zero
          (((a + op + (p &&& CPUFlag.Carry)) % 65536) % 256 == 0))
        CPUFlag.Negative
          (((a + op + (p &&& CPUFlag.Carry)) % 65536) % 256 &&& 0x80 == 0x80))
      CPUFlag.Carry
        (((a + op + (p &&& CPUFlag.Carry)) % 65536) &&& 0x100 == 0x100))
    CPUFlag.Overflow
      (((((a + op + (p &&& CPUFlag.Carry)) % 65536) ^^^ a) &&&
        (((a + op + (p &&& CPUFlag.Carry)) % 65536) ^^^ op)) &&& 0x80 == 0x80)).testBit 6 = true ↔
      (((a + op + (p &&& CPUFlag.Carry)) ^^^ a) &&&
        ((a + op + (p &&& CPUFlag.Carry)) ^^^ op)) &&& 0x80 ≠ 0) := by
  have hc1 : p &&& CPUFlag.Carry ≤ CPUFlag.Carry := Nat.and_le_right
  unfold CPUFlag.Carry at hc1
  have hplain : (a + op + (p &&& CPUFlag.Carry)) % 65536 = a + op + (p &&& CPUFlag.Carry) := by
    apply Nat.mod_eq_of_lt
    unfold CPUFlag.Carry
    omega
  rw [hplain]
  simp only [CPUFlag.Zero, CPUFlag.Negative, CPUFlag.Carry, CPUFlag.Overflow]
  refine ⟨?_, ?_, ?_, ?_, ?_⟩
  · trivial
  · rw [flag_put_testBit _ 64 _ 0 (by norm_num), if_neg (by decide),
      flag_put_testBit _ 1 _ 0 (by norm_num), if_pos (by decide)]
    rw [show (256 : Nat) = 2 ^ 8 from by norm_num, land_pow_beq]
  · rw [flag_put_testBit _ 64 _ 1 (by norm_num), if_neg (by decide),
      flag_put_testBit _ 1 _ 1 (by norm_num), if_neg (by decide),
      flag_put_testBit _ 128 _ 1 (by norm_num), if_neg (by decide),
      flag_put_testBit _ 2 _ 1 (by norm_num), if_pos (by decide)]
    exact beq_iff_eq
  · rw [flag_put_testBit _ 64 _ 7 (by norm_num), if_neg (by decide),
      flag_put_testBit _ 1 _ 7 (by norm_num), if_neg (by decide),
      flag_put_testBit _ 128 _ 7 (by norm_num), if_pos (by decide)]
    rw [show (128 : Nat) = 2 ^ 7 from by norm_num, land_pow_beq]
  · rw [flag_put_testBit _ 64 _ 6 (by norm_num), if_pos (by decide)]
    rw [show (128 : Nat) = 2 ^ 7 from by norm_num, land_pow_beq]
    exact testBit_iff_land_ne _ 7

theorem fetch_step_11 (a x y p pc s8 t8 t16 : Nat) (mem : Nat → Nat)
    (hdec : decode (mem pc % 256) = (.NOP 1 1, .Implied)) :
    cycle ⟨.Run, (.NOP 1 1, .Implied), 0, a, x, y, p, pc, s8, t8, t16, false, mem⟩ = .ok ⟨.Run, (.NOP 1 1, .Implied), 0, a, x, y, p, (pc + 1) % 65536, s8, t8, t16, false, mem⟩ := by
  simp [cycle, run_arm, W65C02S.fetch, W65C02S.read, hdec, beq_nop]

theorem run_nop_11 (a x y p pc s8 t8 t16 : Nat) (mem : Nat → Nat)
    (hdec : decode (mem pc % 256) = (.NOP 1 1, .Implied)) :
    runCycles ⟨.Run, (.NOP 1 1, .Implied), 0, a, x, y, p, pc, s8, t8, t16, false, mem⟩ 1 = .ok ⟨.Run, (.NOP 1 1, .Implied), 0, a, x, y, p, (pc + 1) % 65536, s8, t8, t16, false, mem⟩ :=
  calc runCycles ⟨.Run, (.NOP 1 1, .Implied), 0, a, x, y, p, pc, s8, t8, t16, false, mem⟩ 1
      = runCycles ⟨.Run, (.NOP 1 1, .Implied), 0, a, x, y, p, (pc + 1) % 65536, s8, t8, t16, false, mem⟩ 0 :=
        runCycles_cons _ _ 0 (fetch_step_11 a x y p pc s8 t8 t16 mem hdec)
    _ = .ok ⟨.Run, (.NOP 1 1, .Implied), 0, a, x, y, p, (pc + 1) % 65536, s8, t8, t16, false, mem⟩ := rfl

theorem fetch_step_12 (a x y p pc s8 t8 t16 : Nat) (mem : Nat → Nat)
    (hdec : decode (mem pc % 256) = (.NOP 1 2, .Implied)) :
    cycle ⟨.Run, (.NOP 1 2, .Implied), 0, a, x, y, p, pc, s8, t8, t16, false, mem⟩ = .ok ⟨.Run, (.NOP 1 2, .Implied), 1, a, x, y, p, (pc + 1) % 65536, s8, t8, t16, false, mem⟩ := by
  simp [cycle, run_arm, W65C02S.fetch, W65C02S.read, hdec, beq_nop]

theorem arm_step_12_1 (a x y p pc s8 t8 t16 : Nat) (mem : Nat → Nat) (intr : Bool) :
    cycle ⟨.Run, (.NOP 1 2, .Implied), 1, a, x, y, p, pc, s8, t8, t16, intr, mem⟩ =
      .ok ⟨.Run, (.NOP 1 2, .Implied), 2, a, x, y, p, pc, s8, t8, t16, intr, mem⟩ := by
  simp [cycle, run_arm, W65C02S.fetch, W65C02S.read]

theorem arm_step_12_2 (a x y p pc s8 t8 t16 : Nat) (mem : Nat → Nat) (intr : Bool) :
    cycle ⟨.Run, (.NOP 1 2, .Implied), 2, a, x, y, p, pc, s8, t8, t16, intr, mem⟩ =
      .ok ⟨.Run, (.NOP 1 2, .Implied), 0, a, x, y, p, pc, s8, t8, t16, intr, mem⟩ := by
  simp [cycle, run_arm, W65C02S.fetch, W65C02S.read]

theorem run_nop_12 (a x y p pc s8 t8 t16 : Nat) (mem : Nat → Nat)
    (hdec : decode (mem pc % 256) = (.NOP 1 2, .Implied)) :
    runCycles ⟨.Run, (.NOP 1 2, .Implied), 0, a, x, y, p, pc, s8, t8, t16, false, mem⟩ 3 = .ok ⟨.Run, (.NOP 1 2, .Implied), 0, a, x, y, p, (pc + 1) % 65536, s8, t8, t16, false, mem⟩ :=
  calc runCycles ⟨.Run, (.NOP 1 2, .Implied), 0, a, x, y, p, pc, s8, t8, t16, false, mem⟩ 3
      = runCycles ⟨.Run, (.NOP 1 2, .Implied), 1, a, x, y, p, (pc + 1) % 65536, s8, t8, t16, false, mem⟩ 2 :=
        runCycles_cons _ _ 2 (fetch_step_12 a x y p pc s8 t8 t16 mem hdec)
    _ = runCycles ⟨.Run, (.NOP 1 2, .Implied), 2, a, x, y, p, (pc + 1) % 65536, s8, t8, t16, false, mem⟩ 1 :=
        runCycles_cons _ _ 1 (arm_step_12_1 a x y p ((pc + 1) % 65536) s8 t8 t16 mem false)
    _ = runCycles ⟨.Run, (.NOP 1 2, .Implied), 0, a, x, y, p, (pc + 1) % 65536, s8, t8, t16, false, mem⟩ 0 :=
        runCycles_cons _ _ 0 (arm_step_12_2 a x y p ((pc + 1) % 65536) s8 t8 t16 mem false)
    _ = .ok ⟨.Run, (.NOP 1 2, .Implied), 0, a, x, y, p, (pc + 1) % 65536, s8, t8, t16, false, mem⟩ := rfl

theorem fetch_step_22 (a x y p pc s8 t8 t16 : Nat) (mem : Nat → Nat)
    (hdec : decode (mem pc % 256) = (.NOP 2 2, .Implied)) :
    cycle ⟨.Run, (.NOP 2 2, .Implied), 0, a, x, y, p, pc, s8, t8, t16, false, mem⟩ = .ok ⟨.Run, (.NOP 2 2, .Implied), 1, a, x, y, p, (pc + 1) % 65536, s8, t8, t16, false, mem⟩ := by
  simp [cycle, run_arm, W65C02S.fetch, W65C02S.read, hdec, beq_nop]

theorem arm_step_22_1 (a x y p pc s8 t8 t16 : Nat) (mem : Nat → Nat) (intr : Bool) :
    cycle ⟨.Run, (.NOP 2 2, .Implied), 1, a, x, y, p, pc, s8, t8, t16, intr, mem⟩ =
      .ok ⟨.Run, (.NOP 2 2, .Implied), 2, a, x, y, p, (pc + 1) % 65536, s8, t8, t16, intr, mem⟩ := by
  simp [cycle, run_arm, W65C02S.fetch, W65C02S.read]

theorem arm_step_22_2 (a x y p pc s8 t8 t16 : Nat) (mem : Nat → Nat) (intr : Bool) :
    cycle ⟨.Run, (.NOP 2 2, .Implied), 2, a, x, y, p, pc, s8, t8, t16, intr, mem⟩ =
      .ok ⟨.Run, (.NOP 2 2, .Implied), 0, a, x, y, p, pc, s8, t8, t16, intr, mem⟩ := by
  simp [cycle, run_arm, W65C02S.fetch, W65C02S.read]

theorem run_nop_22 (a x y p pc s8 t8 t16 : Nat) (mem : Nat → Nat)
    (hdec : decode (mem pc % 256) = (.NOP 2 2, .Implied)) :
    runCycles ⟨.Run, (.NOP 2 2, .Implied), 0, a, x, y, p, pc, s8, t8, t16, false, mem⟩ 3 = .ok ⟨.Run, (.NOP 2 2, .Implied), 0, a, x, y, p, ((pc + 1) % 65536 + 1) % 65536, s8, t8, t16, false, mem⟩ :=
  calc runCycles ⟨.Run, (.NOP 2 2, .Implied), 0, a, x, y, p, pc, s8, t8, t16, false, mem⟩ 3
      = runCycles ⟨.Run, (.NOP 2 2, .Implied), 1, a, x, y, p, (pc + 1) % 65536, s8, t8, t16, false, mem⟩ 2 :=
        runCycles_cons _ _ 2 (fetch_step_22 a x y p pc s8 t8 t16 mem hdec)
    _ = runCycles ⟨.Run, (.NOP 2 2, .Implied), 2, a, x, y, p, ((pc + 1) % 65536 + 1) % 65536, s8, t8, t16, false, mem⟩ 1 :=
        runCycles_cons _ _ 1 (arm_step_22_1 a x y p ((pc + 1) % 65536) s8 t8 t16 mem false)
    _ = runCycles ⟨.Run, (.NOP 2 2, .Implied), 0, a, x, y, p, ((pc + 1) % 65536 + 1) % 65536, s8, t8, t16, false, mem⟩ 0 :=
        runCycles_cons _ _ 0 (arm_step_22_2 a x y p (((pc + 1) % 65536 + 1) % 65536) s8 t8 t16 mem false)
    _ = .ok ⟨.Run, (.NOP 2 2, .Implied), 0, a, x, y, p, ((pc + 1) % 65536 + 1) % 65536, s8, t8, t16, false, mem⟩ := rfl

theorem fetch_step_23 (a x y p pc s8 t8 t16 : Nat) (mem : Nat → Nat)
    (hdec : decode (mem pc % 256) = (.NOP 2 3, .Implied)) :
    cycle ⟨.Run, (.NOP 2 3, .Implied), 0, a, x, y, p, pc, s8, t8, t16, false, mem⟩ = .ok ⟨.Run, (.NOP 2 3, .Implied), 1, a, x, y, p, (pc + 1) % 65536, s8, t8, t16, false, mem⟩ := by
  simp [cycle, run_arm, W65C02S.fetch, W65C02S.read, hdec, beq_nop]

theorem arm_step_23_1 (a x y p pc s8 t8 t16 : Nat) (mem : Nat → Nat) (intr : Bool) :
    cycle ⟨.Run, (.NOP 2 3, .Implied), 1, a, x, y, p, pc, s8, t8, t16, intr, mem⟩ =
      .ok ⟨.Run, (.NOP 2 3, .Implied), 2, a, x, y, p, (pc + 1) % 65536, s8, t8, t16, intr, mem⟩ := by
  simp [cycle, run_arm, W65C02S.fetch, W65C02S.read]

theorem arm_step_23_2 (a x y p pc s8 t8 t16 : Nat) (mem : Nat → Nat) (intr : Bool) :
    cycle ⟨.Run, (.NOP 2 3, .Implied), 2, a, x, y, p, pc, s8, t8, t16, intr, mem⟩ =
      .ok ⟨.Run, (.NOP 2 3, .Implied), 3, a, x, y, p, pc, s8, t8, t16, intr, mem⟩ := by
  simp [cycle, run_arm, W65C02S.fetch, W65C02S.read]

theorem arm_step_23_3 (a x y p pc s8 t8 t16 : Nat) (mem : Nat → Nat) (intr : Bool) :
    cycle ⟨.Run, (.NOP 2 3, .Implied), 3, a, x, y, p, pc, s8, t8, t16, intr, mem⟩ =
      .ok ⟨.Run, (.NOP 2 3, .Implied), 0, a, x, y, p, pc, s8, t8, t16, intr, mem⟩ := by
  simp [cycle, run_arm, W65C02S.fetch, W65C02S.read]

theorem run_nop_23 (a x y p pc s8 t8 t16 : Nat) (mem : Nat → Nat)
    (hdec : decode (mem pc % 256) = (.NOP 2 3, .Implied)) :
    runCycles ⟨.Run, (.NOP 2 3, .Implied), 0, a, x, y, p, pc, s8, t8, t16, false, mem⟩ 4 = .ok ⟨.Run, (.NOP 2 3, .Implied), 0, a, x, y, p, ((pc + 1) % 65536 + 1) % 65536, s8, t8, t16, false, mem⟩ :=
  calc runCycles ⟨.Run, (.NOP 2 3, .Implied), 0, a, x, y, p, pc, s8, t8, t16, false, mem⟩ 4
      = runCycles ⟨.Run, (.NOP 2 3, .Implied), 1, a, x, y, p, (pc + 1) % 65536, s8, t8, t16, false, mem⟩ 3 :=
        runCycles_cons _ _ 3 (fetch_step_23 a x y p pc s8 t8 t16 mem hdec)
    _ = runCycles ⟨.Run, (.NOP 2 3, .Implied), 2, a, x, y, p, ((pc + 1) % 65536 + 1) % 65536, s8, t8, t16, false, mem⟩ 2 :=
        runCycles_cons _ _ 2 (arm_step_23_1 a x y p ((pc + 1) % 65536) s8 t8 t16 mem false)
    _ = runCycles ⟨.Run, (.NOP 2 3, .Implied), 3, a, x, y, p, ((pc + 1) % 65536 + 1) % 65536, s8, t8, t16, false, mem⟩ 1 :=
        runCycles_cons _ _ 1 (arm_step_23_2 a x y p (((pc + 1) % 65536 + 1) % 65536) s8 t8 t16 mem false)
    _ = runCycles ⟨.Run, (.NOP 2 3, .Implied), 0, a, x, y, p, ((pc + 1) % 65536 + 1) % 65536, s8, t8, t16, false, mem⟩ 0 :=
        runCycles_cons _ _ 0 (arm_step_23_3 a x y p (((pc + 1) % 65536 + 1) % 65536) s8 t8 t16 mem false)
    _ = .ok ⟨.Run, (.NOP 2 3, .Implied), 0, a, x, y, p, ((pc + 1) % 65536 + 1) % 65536, s8, t8, t16, false, mem⟩ := rfl

theorem fetch_step_24 (a x y p pc s8 t8 t16 : Nat) (mem : Nat → Nat)
    (hdec : decode (mem pc % 256) = (.NOP 2 4, .Implied)) :
    cycle ⟨.Run, (.NOP 2 4, .Implied), 0, a, x, y, p, pc, s8, t8, t16, false, mem⟩ = .ok ⟨.Run, (.NOP 2 4, .Implied), 1, a, x, y, p, (pc + 1) % 65536, s8, t8, t16, false, mem⟩ := by
  simp [cycle, run_arm, W65C02S.fetch, W65C02S.read, hdec, beq_nop]

theorem arm_step_24_1 (a x y p pc s8 t8 t16 : Nat) (mem : Nat → Nat) (intr : Bool) :
    cycle ⟨.Run, (.NOP 2 4, .Implied), 1, a, x, y, p, pc, s8, t8, t16, intr, mem⟩ =
      .ok ⟨.Run, (.NOP 2 4, .Implied), 2, a, x, y, p, (pc + 1) % 65536, s8, t8, t16, intr, mem⟩ := by
  simp [cycle, run_arm, W65C02S.fetch, W65C02S.read]

theorem arm_step_24_2 (a x y p pc s8 t8 t16 : Nat) (mem : Nat → Nat) (intr : Bool) :
    cycle ⟨.Run, (.NOP 2 4, .Implied), 2, a, x, y, p, pc, s8, t8, t16, intr, mem⟩ =
      .ok ⟨.Run, (.NOP 2 4, .Implied), 3, a, x, y, p, pc, s8, t8, t16, intr, mem⟩ := by
  simp [cycle, run_arm, W65C02S.fetch, W65C02S.read]

theorem arm_step_24_3 (a x y p pc s8 t8 t16 : Nat) (mem : Nat → Nat) (intr : Bool) :
    cycle ⟨.Run, (.NOP 2 4, .Implied), 3, a, x, y, p, pc, s8, t8, t16, intr, mem⟩ =
      .ok ⟨.Run, (.NOP 2 4, .Implied), 4, a, x, y, p, pc, s8, t8, t16, intr, mem⟩ := by
  simp [cycle, run_arm, W65C02S.fetch, W65C02S.read]

theorem arm_step_24_4 (a x y p pc s8 t8 t16 : Nat) (mem : Nat → Nat) (intr : Bool) :
    cycle ⟨.Run, (.NOP 2 4, .Implied), 4, a, x, y, p, pc, s8, t8, t16, intr, mem⟩ =
      .ok ⟨.Run, (.NOP 2 4, .Implied), 0, a, x, y, p, pc, s8, t8, t16, intr, mem⟩ := by
  simp [cycle, run_arm, W65C02S.fetch, W65C02S.read]

theorem run_nop_24 (a x y p pc s8 t8 t16 : Nat) (mem : Nat → Nat)
    (hdec : decode (mem pc % 256) = (.NOP 2 4, .Implied)) :
    runCycles ⟨.Run, (.NOP 2 4, .Implied), 0, a, x, y, p, pc, s8, t8, t16, false, mem⟩ 5 = .ok ⟨.Run, (.NOP 2 4, .Implied), 0, a, x, y, p, ((pc + 1) % 65536 + 1) % 65536, s8, t8, t16, false, mem⟩ :=
  calc runCycles ⟨.Run, (.NOP 2 4, .Implied), 0, a, x, y, p, pc, s8, t8, t16, false, mem⟩ 5
      = runCycles ⟨.Run, (.NOP 2 4, .Implied), 1, a, x, y, p, (pc + 1) % 65536, s8, t8, t16, false, mem⟩ 4 :=
        runCycles_cons _ _ 4 (fetch_step_24 a x y p pc s8 t8 t16 mem hdec)
    _ = runCycles ⟨.Run, (.NOP 2 4, .Implied), 2, a, x, y, p, ((pc + 1) % 65536 + 1) % 65536, s8, t8, t16, false, mem⟩ 3 :=
        runCycles_cons _ _ 3 (arm_step_24_1 a x y p ((pc + 1) % 65536) s8 t8 t16 mem false)
    _ = runCycles ⟨.Run, (.NOP 2 4, .Implied), 3, a, x, y, p, ((pc + 1) % 65536 + 1) % 65536, s8, t8, t16, false, mem⟩ 2 :=
        runCycles_cons _ _ 2 (arm_step_24_2 a x y p (((pc + 1) % 65536 + 1) % 65536) s8 t8 t16 mem false)
    _ = runCycles ⟨.Run, (.NOP 2 4, .Implied), 4, a, x, y, p, ((pc + 1) % 65536 + 1) % 65536, s8, t8, t16, false, mem⟩ 1 :=
        runCycles_cons _ _ 1 (arm_step_24_3 a x y p (((pc + 1) % 65536 + 1) % 65536) s8 t8 t16 mem false)
    _ = runCycles ⟨.Run, (.NOP 2 4, .Implied), 0, a, x, y, p, ((pc + 1) % 65536 + 1) % 65536, s8, t8, t16, false, mem⟩ 0 :=
        runCycles_cons _ _ 0 (arm_step_24_4 a x y p (((pc + 1) % 65536 + 1) % 65536) s8 t8 t16 mem false)
    _ = .ok ⟨.Run, (.NOP 2 4, .Implied), 0, a, x, y, p, ((pc + 1) % 65536 + 1) % 65536, s8, t8, t16, false, mem⟩ := rfl

theorem fetch_step_34 (a x y p pc s8 t8 t16 : Nat) (mem : Nat → Nat)
    (hdec : decode (mem pc % 256) = (.NOP 3 4, .Implied)) :
    cycle ⟨.Run, (.NOP 3 4, .Implied), 0, a, x, y, p, pc, s8, t8, t16, false, mem⟩ = .ok ⟨.Run, (.NOP 3 4, .Implied), 1, a, x, y, p, (pc + 1) % 65536, s8, t8, t16, false, mem⟩ := by
  simp [cycle, run_arm, W65C02S.fetch, W65C02S.read, hdec, beq_nop]

theorem arm_step_34_1 (a x y p pc s8 t8 t16 : Nat) (mem : Nat → Nat) (intr : Bool) :
    cycle ⟨.Run, (.NOP 3 4, .Implied), 1, a, x, y, p, pc, s8, t8, t16, intr, mem⟩ =
      .ok ⟨.Run, (.NOP 3 4, .Implied), 2, a, x, y, p, (pc + 1) % 65536, s8, t8, t16, intr, mem⟩ := by
  simp [cycle, run_arm, W65C02S.fetch, W65C02S.read]

theorem arm_step_34_2 (a x y p pc s8 t8 t16 : Nat) (mem : Nat → Nat) (intr : Bool) :
    cycle ⟨.Run, (.NOP 3 4, .Implied), 2, a, x, y, p, pc, s8, t8, t16, intr, mem⟩ =
      .ok ⟨.Run, (.NOP 3 4, .Implied), 3, a, x, y, p, (pc + 1) % 65536, s8, t8, t16, intr, mem⟩ := by
  simp [cycle, run_arm, W65C02S.fetch, W65C02S.read]

theorem arm_step_34_3 (a x y p pc s8 t8 t16 : Nat) (mem : Nat → Nat) (intr : Bool) :
    cycle ⟨.Run, (.NOP 3 4, .Implied), 3, a, x, y, p, pc, s8, t8, t16, intr, mem⟩ =
      .ok ⟨.Run, (.NOP 3 4, .Implied), 4, a, x, y, p, pc, s8, t8, t16, intr, mem⟩ := by
  simp [cycle, run_arm, W65C02S.fetch, W65C02S.read]

theorem arm_step_34_4 (a x y p pc s8 t8 t16 : Nat) (mem : Nat → Nat) (intr : Bool) :
    cycle ⟨.Run, (.NOP 3 4, .Implied), 4, a, x, y, p, pc, s8, t8, t16, intr, mem⟩ =
      .ok ⟨.Run, (.NOP 3 4, .Implied), 0, a, x, y, p, pc, s8, t8, t16, intr, mem⟩ := by
  simp [cycle, run_arm, W65C02S.fetch, W65C02S.read]

theorem run_nop_34 (a x y p pc s8 t8 t16 : Nat) (mem : Nat → Nat)
    (hdec : decode (mem pc % 256) = (.NOP 3 4, .Implied)) :
    runCycles ⟨.Run, (.NOP 3 4, .Implied), 0, a, x, y, p, pc, s8, t8, t16, false, mem⟩ 5 = .ok ⟨.Run, (.NOP 3 4, .Implied), 0, a, x, y, p, (((pc + 1) % 65536 + 1) % 65536 + 1) % 65536, s8, t8, t16, false, mem⟩ :=
  calc runCycles ⟨.Run, (.NOP 3 4, .Implied), 0, a, x, y, p, pc, s8, t8, t16, false, mem⟩ 5
      = runCycles ⟨.Run, (.NOP 3 4, .Implied), 1, a, x, y, p, (pc + 1) % 65536, s8, t8, t16, false, mem⟩ 4 :=
        runCycles_cons _ _ 4 (fetch_step_34 a x y p pc s8 t8 t16 mem hdec)
    _ = runCycles ⟨.Run, (.NOP 3 4, .Implied), 2, a, x, y, p, ((pc + 1) % 65536 + 1) % 65536, s8, t8, t16, false, mem⟩ 3 :=
        runCycles_cons _ _ 3 (arm_step_34_1 a x y p ((pc + 1) % 65536) s8 t8 t16 mem false)
    _ = runCycles ⟨.Run, (.NOP 3 4, .Implied), 3, a, x, y, p, (((pc + 1) % 65536 + 1) % 65536 + 1) % 65536, s8, t8, t16, false, mem⟩ 2 :=
        runCycles_cons _ _ 2 (arm_step_34_2 a x y p (((pc + 1) % 65536 + 1) % 65536) s8 t8 t16 mem false)
    _ = runCycles ⟨.Run, (.NOP 3 4, .Implied), 4, a, x, y, p, (((pc + 1) % 65536 + 1) % 65536 + 1) % 65536, s8, t8, t16, false, mem⟩ 1 :=
        runCycles_cons _ _ 1 (arm_step_34_3 a x y p ((((pc + 1) % 65536 + 1) % 65536 + 1) % 65536) s8 t8 t16 mem false)
    _ = runCycles ⟨.Run, (.NOP 3 4, .Implied), 0, a, x, y, p, (((pc + 1) % 65536 + 1) % 65536 + 1) % 65536, s8, t8, t16, false, mem⟩ 0 :=
        runCycles_cons _ _ 0 (arm_step_34_4 a x y p ((((pc + 1) % 65536 + 1) % 65536 + 1) % 65536) s8 t8 t16 mem false)
    _ = .ok ⟨.Run, (.NOP 3 4, .Implied), 0, a, x, y, p, (((pc + 1) % 65536 + 1) % 65536 + 1) % 65536, s8, t8, t16, false, mem⟩ := rfl

theorem fetch_step_38 (a x y p pc s8 t8 t16 : Nat) (mem : Nat → Nat)
    (hdec : decode (mem pc % 256) = (.NOP 3 8, .Implied)) :
    cycle ⟨.Run, (.NOP 3 8, .Implied), 0, a, x, y, p, pc, s8, t8, t16, false, mem⟩ = .ok ⟨.Run, (.NOP 3 8, .Implied), 1, a, x, y, p, (pc + 1) % 65536, s8, t8, t16, false, mem⟩ := by
  simp [cycle, run_arm, W65C02S.fetch, W65C02S.read, hdec, beq_nop]

theorem arm_step_38_1 (a x y p pc s8 t8 t16 : Nat) (mem : Nat → Nat) (intr : Bool) :
    cycle ⟨.Run, (.NOP 3 8, .Implied), 1, a, x, y, p, pc, s8, t8, t16, intr, mem⟩ =
      .ok ⟨.Run, (.NOP 3 8, .Implied), 2, a, x, y, p, (pc + 1) % 65536, s8, t8, t16, intr, mem⟩ := by
  simp [cycle, run_arm, W65C02S.fetch, W65C02S.read]

theorem arm_step_38_2 (a x y p pc s8 t8 t16 : Nat) (mem : Nat → Nat) (intr : Bool) :
    cycle ⟨.Run, (.NOP 3 8, .Implied), 2, a, x, y, p, pc, s8, t8, t16, intr, mem⟩ =
      .ok ⟨.Run, (.NOP 3 8, .Implied), 3, a, x, y, p, (pc + 1) % 65536, s8, t8, t16, intr, mem⟩ := by
  simp [cycle, run_arm, W65C02S.fetch, W65C02S.read]

theorem arm_step_38_3 (a x y p pc s8 t8 t16 : Nat) (mem : Nat → Nat) (intr : Bool) :
    cycle ⟨.Run, (.NOP 3 8, .Implied), 3, a, x, y, p, pc, s8, t8, t16, intr, mem⟩ =
      .ok ⟨.Run, (.NOP 3 8, .Implied), 4, a, x, y, p, pc, s8, t8, t16, intr, mem⟩ := by
  simp [cycle, run_arm, W65C02S.fetch, W65C02S.read]

theorem arm_step_38_4 (a x y p pc s8 t8 t16 : Nat) (mem : Nat → Nat) (intr : Bool) :
    cycle ⟨.Run, (.NOP 3 8, .Implied), 4, a, x, y, p, pc, s8, t8, t16, intr, mem⟩ =
      .ok ⟨.Run, (.NOP 3 8, .Implied), 5, a, x, y, p, pc, s8, t8, t16, intr, mem⟩ := by
  simp [cycle, run_arm, W65C02S.fetch, W65C02S.read]

theorem arm_step_38_5 (a x y p pc s8 t8 t16 : Nat) (mem : Nat → Nat) (intr : Bool) :
    cycle ⟨.Run, (.NOP 3 8, .Implied), 5, a, x, y, p, pc, s8, t8, t16, intr, mem⟩ =
      .ok ⟨.Run, (.NOP 3 8, .Implied), 6, a, x, y, p, pc, s8, t8, t16, intr, mem⟩ := by
  simp [cycle, run_arm, W65C02S.fetch, W65C02S.read]

theorem arm_step_38_6 (a x y p pc s8 t8 t16 : Nat) (mem : Nat → Nat) (intr : Bool) :
    cycle ⟨.Run, (.NOP 3 8, .Implied), 6, a, x, y, p, pc, s8, t8, t16, intr, mem⟩ =
      .ok ⟨.Run, (.NOP 3 8, .Implied), 7, a, x, y, p, pc, s8, t8, t16, intr, mem⟩ := by
  simp [cycle, run_arm, W65C02S.fetch, W65C02S.read]

theorem arm_step_38_7 (a x y p pc s8 t8 t16 : Nat) (mem : Nat → Nat) (intr : Bool) :
    cycle ⟨.Run, (.NOP 3 8, .Implied), 7, a, x, y, p, pc, s8, t8, t16, intr, mem⟩ =
      .ok ⟨.Run, (.NOP 3 8, .Implied), 8, a, x, y, p, pc, s8, t8, t16, intr, mem⟩ := by
  simp [cycle, run_arm, W65C02S.fetch, W65C02S.read]

theorem arm_step_38_8 (a x y p pc s8 t8 t16 : Nat) (mem : Nat → Nat) (intr : Bool) :
    cycle ⟨.Run, (.NOP 3 8, .Implied), 8, a, x, y, p, pc, s8, t8, t16, intr, mem⟩ =
      .ok ⟨.Run, (.NOP 3 8, .Implied), 0, a, x, y, p, pc, s8, t8, t16, intr, mem⟩ := by
  simp [cycle, run_arm, W65C02S.fetch, W65C02S.read]

theorem run_nop_38 (a x y p pc s8 t8 t16 : Nat) (mem : Nat → Nat)
    (hdec : decode (mem pc % 256) = (.NOP 3 8, .Implied)) :
    runCycles ⟨.Run, (.NOP 3 8, .Implied), 0, a, x, y, p, pc, s8, t8, t16, false, mem⟩ 9 = .ok ⟨.Run, (.NOP 3 8, .Implied), 0, a, x, y, p, (((pc + 1) % 65536 + 1) % 65536 + 1) % 65536, s8, t8, t16, false, mem⟩ :=
  calc runCycles ⟨.Run, (.NOP 3 8, .Implied), 0, a, x, y, p, pc, s8, t8, t16, false, mem⟩ 9
      = runCycles ⟨.Run, (.NOP 3 8, .Implied), 1, a, x, y, p, (pc + 1) % 65536, s8, t8, t16, false, mem⟩ 8 :=
        runCycles_cons _ _ 8 (fetch_step_38 a x y p pc s8 t8 t16 mem hdec)
    _ = runCycles ⟨.Run, (.NOP 3 8, .Implied), 2, a, x, y, p, ((pc + 1) % 65536 + 1) % 65536, s8, t8, t16, false, mem⟩ 7 :=
        runCycles_cons _ _ 7 (arm_step_38_1 a x y p ((pc + 1) % 65536) s8 t8 t16 mem false)
    _ = runCycles ⟨.Run, (.NOP 3 8, .Implied), 3, a, x, y, p, (((pc + 1) % 65536 + 1) % 65536 + 1) % 65536, s8, t8, t16, false, mem⟩ 6 :=
        runCycles_cons _ _ 6 (arm_step_38_2 a x y p (((pc + 1) % 65536 + 1) % 65536) s8 t8 t16 mem false)
    _ = runCycles ⟨.Run, (.NOP 3 8, .Implied), 4, a, x, y, p, (((pc + 1) % 65536 + 1) % 65536 + 1) % 65536, s8, t8, t16, false, mem⟩ 5 :=
        runCycles_cons _ _ 5 (arm_step_38_3 a x y p ((((pc + 1) % 65536 + 1) % 65536 + 1) % 65536) s8 t8 t16 mem false)
    _ = runCycles ⟨.Run, (.NOP 3 8, .Implied), 5, a, x, y, p, (((pc + 1) % 65536 + 1) % 65536 + 1) % 65536, s8, t8, t16, false, mem⟩ 4 :=
        runCycles_cons _ _ 4 (arm_step_38_4 a x y p ((((pc + 1) % 65536 + 1) % 65536 + 1) % 65536) s8 t8 t16 mem false)
    _ = runCycles ⟨.Run, (.NOP 3 8, .Implied), 6, a, x, y, p, (((pc + 1) % 65536 + 1) % 65536 + 1) % 65536, s8, t8, t16, false, mem⟩ 3 :=
        runCycles_cons _ _ 3 (arm_step_38_5 a x y p ((((pc + 1) % 65536 + 1) % 65536 + 1) % 65536) s8 t8 t16 mem false)
    _ = runCycles ⟨.Run, (.NOP 3 8, .Implied), 7, a, x, y, p, (((pc + 1) % 65536 + 1) % 65536 + 1) % 65536, s8, t8, t16, false, mem⟩ 2 :=
        runCycles_cons _ _ 2 (arm_step_38_6 a x y p ((((pc + 1) % 65536 + 1) % 65536 + 1) % 65536) s8 t8 t16 mem false)
    _ = runCycles ⟨.Run, (.NOP 3 8, .Implied), 8, a, x, y, p, (((pc + 1) % 65536 + 1) % 65536 + 1) % 65536, s8, t8, t16, false, mem⟩ 1 :=
        runCycles_cons _ _ 1 (arm_step_38_7 a x y p ((((pc + 1) % 65536 + 1) % 65536 + 1) % 65536) s8 t8 t16 mem false)
    _ = runCycles ⟨.Run, (.NOP 3 8, .Implied), 0, a, x, y, p, (((pc + 1) % 65536 + 1) % 65536 + 1) % 65536, s8, t8, t16, false, mem⟩ 0 :=
        runCycles_cons _ _ 0 (arm_step_38_8 a x y p ((((pc + 1) % 65536 + 1) % 65536 + 1) % 65536) s8 t8 t16 mem false)
    _ = .ok ⟨.Run, (.NOP 3 8, .Implied), 0, a, x, y, p, (((pc + 1) % 65536 + 1) % 65536 + 1) % 65536, s8, t8, t16, false, mem⟩ := rfl

/-- Reset-and-first-NOP trace over any memory with the reset vector
`0x1234` and `0xEA` at the entry. -/
theorem c3_trace (M : Nat → Nat) (hA : M 0xFFFC = 0x34) (hB : M 0xFFFD = 0x12)
    (hC : M 0x1234 = 0xEA) :
    (runCycles (cpu_new M) 8).map (fun c => (c.pc, c.tcu)) = .ok (0x1235, 1) ∧
    (runCycles (cpu_new M) 10).map (fun c => (c.pc, c.tcu)) = .ok (0x1235, 0) := by
  have h7 : runCycles (cpu_new M) 7 =
      .ok { cpu_new M with state := .Run, pc := 0x1234 } := by
    simp only [runCycles, cycle, cpu_new, W65C02S.read, hA, hB]
    norm_num
    decide
  have hdec : decode 0xEA = (.NOP 1 2, .Implied) := rfl
  have h8 : cycle { cpu_new M with state := .Run, pc := 0x1234 } =
      .ok { cpu_new M with state := .Run, pc := 0x1235, ir := (.NOP 1 2, .Implied), tcu := 1 } := by
    simp only [cycle, run_arm, cpu_new, W65C02S.fetch, W65C02S.read, hC]
    norm_num [hdec]
  have h9 : cycle { cpu_new M with state := .Run, pc := 0x1235, ir := (.NOP 1 2, .Implied), tcu := 1 } =
      .ok { cpu_new M with state := .Run, pc := 0x1235, ir := (.NOP 1 2, .Implied), tcu := 2 } := by
    simp only [cycle, run_arm, cpu_new]
    norm_num
  have h10 : cycle { cpu_new M with state := .Run, pc := 0x1235, ir := (.NOP 1 2, .Implied), tcu := 2 } =
      .ok { cpu_new M with state := .Run, pc := 0x1235, ir := (.NOP 1 2, .Implied), tcu := 0 } := by
    simp only [cycle, run_arm, cpu_new]
    norm_num
  have e8 : runCycles (cpu_new M) 8 =
      .ok { cpu_new M with state := .Run, pc := 0x1235, ir := (.NOP 1 2, .Implied), tcu := 1 } := by
    rw [show (8 : Nat) = 7 + 1 from rfl, runCycles_succ_back, h7]
    exact h8
  have e9 : runCycles (cpu_new M) 9 =
      .ok { cpu_new M with state := .Run, pc := 0x1235, ir := (.NOP 1 2, .Implied), tcu := 2 } := by
    rw [show (9 : Nat) = 8 + 1 from rfl, runCycles_succ_back, e8]
    exact h9
  have e10 : runCycles (cpu_new M) 10 =
      .ok { cpu_new M with state := .Run, pc := 0x1235, ir := (.NOP 1 2, .Implied), tcu := 0 } := by
    rw [show (10 : Nat) = 9 + 1 from rfl, runCycles_succ_back, e9]
    exact h10
  rw [e8, e10]
  exact ⟨rfl, rfl⟩


/-! ## The claims -/

/-- C1: executing the ADC arm with the Decimal flag clear sets `A` to the low
8 bits of `sum = A + op + carry_in`, Carry (P bit 0) to bit 8 of `sum`, Zero
(P bit 1) iff the new `A` is 0, Negative (P bit 7) to bit 7 of the new `A`,
and Overflow (P bit 6) iff `((sum ^^^ A_prior) &&& (sum ^^^ op)) &&& 0x80 ≠ 0`,
at each of the nine `(addressing mode, tcu)` pairs where the arm executes. -/
theorem C1_adc_binary (c : W65C02S) (m : AddressMode)
    (hst : c.state = .Run) (hir : c.ir = (.ADC, m))
    (hexec : is_adc_exec m c.tcu = true)
    (hdecimal : c.p &&& CPUFlag.Decimal = 0) (ha : c.a < 256) (hp : c.p < 256) :
    ∃ c1, cycle c = .ok c1 ∧
      (c1.a = (c.a + adc_operand c + (c.p &&& CPUFlag.Carry)) % 256 ∧
      c1.p.testBit 0 = (c.a + adc_operand c + (c.p &&& CPUFlag.Carry)).testBit 8 ∧
      (c1.p.testBit 1 = true ↔ c1.a = 0) ∧
      c1.p.testBit 7 = c1.a.testBit 7 ∧
      (c1.p.testBit 6 = true ↔
        (((c.a + adc_operand c + (c.p &&& CPUFlag.Carry)) ^^^ c.a) &&&
          ((c.a + adc_operand c + (c.p &&& CPUFlag.Carry)) ^^^ adc_operand c)) &&&
          0x80 ≠ 0)) := by
  obtain ⟨st, ir, tcu, a, x, y, p, pc, s8, t8, t16, intr, mem⟩ := c
  simp only at hst hir hexec hdecimal ha hp
  subst hst
  subst hir
  have hdecb : (p &&& CPUFlag.Decimal == 0) = true := beq_iff_eq.mpr hdecimal
  cases m <;> rcases tcu with _|_|_|_|_|_|tcu <;> simp [is_adc_exec] at hexec
  · have hoperand : mem t16 % 256 < 256 := Nat.mod_lt _ (by norm_num)
    have E : cycle ⟨.Run, (.ADC, .Absolute), 3, a, x, y, p, pc, s8, t8, t16, intr, mem⟩ =
        .ok { state := .Run, ir := (.ADC, .Absolute), tcu := 0,
              a := (a + mem t16 % 256 + (p &&& CPUFlag.Carry)) % 65536 % 256, x := x, y := y,
              p := flag_put (flag_put (flag_put (flag_put p CPUFlag.Zero
                      (((a + mem t16 % 256 + (p &&& CPUFlag.Carry)) % 65536) % 256 == 0))
                    CPUFlag.Negative
                      (((a + mem t16 % 256 + (p &&& CPUFlag.Carry)) % 65536) % 256 &&& 0x80 == 0x80))
                  CPUFlag.Carry
                    (((a + mem t16 % 256 + (p &&& CPUFlag.Carry)) % 65536) &&& 0x100 == 0x100))
                CPUFlag.Overflow
                  (((((a + mem t16 % 256 + (p &&& CPUFlag.Carry)) % 65536) ^^^ a) &&&
                    (((a + mem t16 % 256 + (p &&& CPUFlag.Carry)) % 65536) ^^^ (mem t16 % 256))) &&& 0x80 == 0x80),
              pc := pc, s := s8, temp8 := t8, temp16 := t16, interrupt := intr, mem := mem } := by
      simp [cycle, run_arm, W65C02S.fetch_operand, W65C02S.fetch, W65C02S.read,
        W65C02S.update_zero_flag, W65C02S.update_negative_flag, W65C02S.update_carry_flag,
        W65C02S.update_overflow_flag, hdecb, CPUFlag.Carry, flag_put, CPUFlag.Zero,
        CPUFlag.Negative, CPUFlag.Overflow, not8]
    have hopval : adc_operand ⟨.Run, (.ADC, .Absolute), 3, a, x, y, p, pc, s8, t8, t16, intr, mem⟩ = mem t16 % 256 := by
      simp [adc_operand]
    refine ⟨_, E, ?_⟩
    rw [hopval]
    have h := adc_binary_post a (mem t16 % 256) p ha hoperand hp
    exact ⟨h.1, h.2.1, h.2.2.1, h.2.2.2.1, h.2.2.2.2⟩
  · have hoperand : mem t16 % 256 < 256 := Nat.mod_lt _ (by norm_num)
    have E : cycle ⟨.Run, (.ADC, .AbsoluteIndexedWithX), 3, a, x, y, p, pc, s8, t8, t16, intr, mem⟩ =
        .ok { state := .Run, ir := (.ADC, .AbsoluteIndexedWithX), tcu := 0,
              a := (a + mem t16 % 256 + (p &&& CPUFlag.Carry)) % 65536 % 256, x := x, y := y,
              p := flag_put (flag_put (flag_put (flag_put p CPUFlag.Zero
                      (((a + mem t16 % 256 + (p &&& CPUFlag.Carry)) % 65536) % 256 == 0))
                    CPUFlag.Negative
                      (((a + mem t16 % 256 + (p &&& CPUFlag.Carry)) % 65536) % 256 &&& 0x80 == 0x80))
                  CPUFlag.Carry
                    (((a + mem t16 % 256 + (p &&& CPUFlag.Carry)) % 65536) &&& 0x100 == 0x100))
                CPUFlag.Overflow
                  (((((a + mem t16 % 256 + (p &&& CPUFlag.Carry)) % 65536) ^^^ a) &&&
                    (((a + mem t16 % 256 + (p &&& CPUFlag.Carry)) % 65536) ^^^ (mem t16 % 256))) &&& 0x80 == 0x80),
              pc := pc, s := s8, temp8 := t8, temp16 := t16, interrupt := intr, mem := mem } := by
      simp [cycle, run_arm, W65C02S.fetch_operand, W65C02S.fetch, W65C02S.read,
        W65C02S.update_zero_flag, W65C02S.update_negative_flag, W65C02S.update_carry_flag,
        W65C02S.update_overflow_flag, hdecb, CPUFlag.Carry, flag_put, CPUFlag.Zero,
        CPUFlag.Negative, CPUFlag.Overflow, not8]
    have hopval : adc_operand ⟨.Run, (.ADC, .AbsoluteIndexedWithX), 3, a, x, y, p, pc, s8, t8, t16, intr, mem⟩ = mem t16 % 256 := by
      simp [adc_operand]
    refine ⟨_, E, ?_⟩
    rw [hopval]
    have h := adc_binary_post a (mem t16 % 256) p ha hoperand hp
    exact ⟨h.1, h.2.1, h.2.2.1, h.2.2.2.1, h.2.2.2.2⟩
  · have hoperand : mem t16 % 256 < 256 := Nat.mod_lt _ (by norm_num)
    have E : cycle ⟨.Run, (.ADC, .AbsoluteIndexedWithY), 3, a, x, y, p, pc, s8, t8, t16, intr, mem⟩ =
        .ok { state := .Run, ir := (.ADC, .AbsoluteIndexedWithY), tcu := 0,
              a := (a + mem t16 % 256 + (p &&& CPUFlag.Carry)) % 65536 % 256, x := x, y := y,
              p := flag_put (flag_put (flag_put (flag_put p CPUFlag.Zero
                      (((a + mem t16 % 256 + (p &&& CPUFlag.Carry)) % 65536) % 256 == 0))
                    CPUFlag.Negative
                      (((a + mem t16 % 256 + (p &&& CPUFlag.Carry)) % 65536) % 256 &&& 0x80 == 0x80))
                  CPUFlag.Carry
                    (((a + mem t16 % 256 + (p &&& CPUFlag.Carry)) % 65536) &&& 0x100 == 0x100))
                CPUFlag.Overflow
                  (((((a + mem t16 % 256 + (p &&& CPUFlag.Carry)) % 65536) ^^^ a) &&&
                    (((a + mem t16 % 256 + (p &&& CPUFlag.Carry)) % 65536) ^^^ (mem t16 % 256))) &&& 0x80 == 0x80),
              pc := pc, s := s8, temp8 := t8, temp16 := t16, interrupt := intr, mem := mem } := by
      simp [cycle, run_arm, W65C02S.fetch_operand, W65C02S.fetch, W65C02S.read,
        W65C02S.update_zero_flag, W65C02S.update_negative_flag, W65C02S.update_carry_flag,
        W65C02S.update_overflow_flag, hdecb, CPUFlag.Carry, flag_put, CPUFlag.Zero,
        CPUFlag.Negative, CPUFlag.Overflow, not8]
    have hopval : adc_operand ⟨.Run, (.ADC, .AbsoluteIndexedWithY), 3, a, x, y, p, pc, s8, t8, t16, intr, mem⟩ = mem t16 % 256 := by
      simp [adc_operand]
    refine ⟨_, E, ?_⟩
    rw [hopval]
    have h := adc_binary_post a (mem t16 % 256) p ha hoperand hp
    exact ⟨h.1, h.2.1, h.2.2.1, h.2.2.2.1, h.2.2.2.2⟩
  · have hoperand : mem pc % 256 < 256 := Nat.mod_lt _ (by norm_num)
    have E : cycle ⟨.Run, (.ADC, .ImmediateAddressing), 1, a, x, y, p, pc, s8, t8, t16, intr, mem⟩ =
        .ok { state := .Run, ir := (.ADC, .ImmediateAddressing), tcu := 0,
              a := (a + mem pc % 256 + (p &&& CPUFlag.Carry)) % 65536 % 256, x := x, y := y,
              p := flag_put (flag_put (flag_put (flag_put p CPUFlag.Zero
                      (((a + mem pc % 256 + (p &&& CPUFlag.Carry)) % 65536) % 256 == 0))
                    CPUFlag.Negative
                      (((a + mem pc % 256 + (p &&& CPUFlag.Carry)) % 65536) % 256 &&& 0x80 == 0x80))
                  CPUFlag.Carry
                    (((a + mem pc % 256 + (p &&& CPUFlag.Carry)) % 65536) &&& 0x100 == 0x100))
                CPUFlag.Overflow
                  (((((a + mem pc % 256 + (p &&& CPUFlag.Carry)) % 65536) ^^^ a) &&&
                    (((a + mem pc % 256 + (p &&& CPUFlag.Carry)) % 65536) ^^^ (mem pc % 256))) &&& 0x80 == 0x80),
              pc := (pc + 1) % 65536, s := s8, temp8 := t8, temp16 := t16, interrupt := intr, mem := mem } := by
      simp [cycle, run_arm, W65C02S.fetch_operand, W65C02S.fetch, W65C02S.read,
        W65C02S.update_zero_flag, W65C02S.update_negative_flag, W65C02S.update_carry_flag,
        W65C02S.update_overflow_flag, hdecb, CPUFlag.Carry, flag_put, CPUFlag.Zero,
        CPUFlag.Negative, CPUFlag.Overflow, not8]
    have hopval : adc_operand ⟨.Run, (.ADC, .ImmediateAddressing), 1, a, x, y, p, pc, s8, t8, t16, intr, mem⟩ = mem pc % 256 := by
      simp [adc_operand]
    refine ⟨_, E, ?_⟩
    rw [hopval]
    have h := adc_binary_post a (mem pc % 256) p ha hoperand hp
    exact ⟨h.1, h.2.1, h.2.2.1, h.2.2.2.1, h.2.2.2.2⟩
  · have hoperand : mem t16 % 256 < 256 := Nat.mod_lt _ (by norm_num)
    have E : cycle ⟨.Run, (.ADC, .ZeroPage), 2, a, x, y, p, pc, s8, t8, t16, intr, mem⟩ =
        .ok { state := .Run, ir := (.ADC, .ZeroPage), tcu := 0,
              a := (a + mem t16 % 256 + (p &&& CPUFlag.Carry)) % 65536 % 256, x := x, y := y,
              p := flag_put (flag_put (flag_put (flag_put p CPUFlag.Zero
                      (((a + mem t16 % 256 + (p &&& CPUFlag.Carry)) % 65536) % 256 == 0))
                    CPUFlag.Negative
                      (((a + mem t16 % 256 + (p &&& CPUFlag.Carry)) % 65536) % 256 &&& 0x80 == 0x80))
                  CPUFlag.Carry
                    (((a + mem t16 % 256 + (p &&& CPUFlag.Carry)) % 65536) &&& 0x100 == 0x100))
                CPUFlag.Overflow
                  (((((a + mem t16 % 256 + (p &&& CPUFlag.Carry)) % 65536) ^^^ a) &&&
                    (((a + mem t16 % 256 + (p &&& CPUFlag.Carry)) % 65536) ^^^ (mem t16 % 256))) &&& 0x80 == 0x80),
              pc := pc, s := s8, temp8 := t8, temp16 := t16, interrupt := intr, mem := mem } := by
      simp [cycle, run_arm, W65C02S.fetch_operand, W65C02S.fetch, W65C02S.read,
        W65C02S.update_zero_flag, W65C02S.update_negative_flag, W65C02S.update_carry_flag,
        W65C02S.update_overflow_flag, hdecb, CPUFlag.Carry, flag_put, CPUFlag.Zero,
        CPUFlag.Negative, CPUFlag.Overflow, not8]
    have hopval : adc_operand ⟨.Run, (.ADC, .ZeroPage), 2, a, x, y, p, pc, s8, t8, t16, intr, mem⟩ = mem t16 % 256 := by
      simp [adc_operand]
    refine ⟨_, E, ?_⟩
    rw [hopval]
    have h := adc_binary_post a (mem t16 % 256) p ha hoperand hp
    exact ⟨h.1, h.2.1, h.2.2.1, h.2.2.2.1, h.2.2.2.2⟩
  · have hoperand : mem t16 % 256 < 256 := Nat.mod_lt _ (by norm_num)
    have E : cycle ⟨.Run, (.ADC, .ZeroPageIndexedIndirect), 5, a, x, y, p, pc, s8, t8, t16, intr, mem⟩ =
        .ok { state := .Run, ir := (.ADC, .ZeroPageIndexedIndirect), tcu := 0,
              a := (a + mem t16 % 256 + (p &&& CPUFlag.Carry)) % 65536 % 256, x := x, y := y,
              p := flag_put (flag_put (flag_put (flag_put p CPUFlag.Zero
                      (((a + mem t16 % 256 + (p &&& CPUFlag.Carry)) % 65536) % 256 == 0))
                    CPUFlag.Negative
                      (((a + mem t16 % 256 + (p &&& CPUFlag.Carry)) % 65536) % 256 &&& 0x80 == 0x80))
                  CPUFlag.Carry
                    (((a + mem t16 % 256 + (p &&& CPUFlag.Carry)) % 65536) &&& 0x100 == 0x100))
                CPUFlag.Overflow
                  (((((a + mem t16 % 256 + (p &&& CPUFlag.Carry)) % 65536) ^^^ a) &&&
                    (((a + mem t16 % 256 + (p &&& CPUFlag.Carry)) % 65536) ^^^ (mem t16 % 256))) &&& 0x80 == 0x80),
              pc := pc, s := s8, temp8 := t8, temp16 := t16, interrupt := intr, mem := mem } := by
      simp [cycle, run_arm, W65C02S.fetch_operand, W65C02S.fetch, W65C02S.read,
        W65C02S.update_zero_flag, W65C02S.update_negative_flag, W65C02S.update_carry_flag,
        W65C02S.update_overflow_flag, hdecb, CPUFlag.Carry, flag_put, CPUFlag.Zero,
        CPUFlag.Negative, CPUFlag.Overflow, not8]
    have hopval : adc_operand ⟨.Run, (.ADC, .ZeroPageIndexedIndirect), 5, a, x, y, p, pc, s8, t8, t16, intr, mem⟩ = mem t16 % 256 := by
      simp [adc_operand]
    refine ⟨_, E, ?_⟩
    rw [hopval]
    have h := adc_binary_post a (mem t16 % 256) p ha hoperand hp
    exact ⟨h.1, h.2.1, h.2.2.1, h.2.2.2.1, h.2.2.2.2⟩
  · have hoperand : mem t16 % 256 < 256 := Nat.mod_lt _ (by norm_num)
    have E : cycle ⟨.Run, (.ADC, .ZeroPageIndexedWithX), 3, a, x, y, p, pc, s8, t8, t16, intr, mem⟩ =
        .ok { state := .Run, ir := (.ADC, .ZeroPageIndexedWithX), tcu := 0,
              a := (a + mem t16 % 256 + (p &&& CPUFlag.Carry)) % 65536 % 256, x := x, y := y,
              p := flag_put (flag_put (flag_put (flag_put p CPUFlag.Zero
                      (((a + mem t16 % 256 + (p &&& CPUFlag.Carry)) % 65536) % 256 == 0))
                    CPUFlag.Negative
                      (((a + mem t16 % 256 + (p &&& CPUFlag.Carry)) % 65536) % 256 &&& 0x80 == 0x80))
                  CPUFlag.Carry
                    (((a + mem t16 % 256 + (p &&& CPUFlag.Carry)) % 65536) &&& 0x100 == 0x100))
                CPUFlag.Overflow
                  (((((a + mem t16 % 256 + (p &&& CPUFlag.Carry)) % 65536) ^^^ a) &&&
                    (((a + mem t16 % 256 + (p &&& CPUFlag.Carry)) % 65536) ^^^ (mem t16 % 256))) &&& 0x80 == 0x80),
              pc := pc, s := s8, temp8 := t8, temp16 := t16, interrupt := intr, mem := mem } := by
      simp [cycle, run_arm, W65C02S.fetch_operand, W65C02S.fetch, W65C02S.read,
        W65C02S.update_zero_flag, W65C02S.update_negative_flag, W65C02S.update_carry_flag,
        W65C02S.update_overflow_flag, hdecb, CPUFlag.Carry, flag_put, CPUFlag.Zero,
        CPUFlag.Negative, CPUFlag.Overflow, not8]
    have hopval : adc_operand ⟨.Run, (.ADC, .ZeroPageIndexedWithX), 3, a, x, y, p, pc, s8, t8, t16, intr, mem⟩ = mem t16 % 256 := by
      simp [adc_operand]
    refine ⟨_, E, ?_⟩
    rw [hopval]
    have h := adc_binary_post a (mem t16 % 256) p ha hoperand hp
    exact ⟨h.1, h.2.1, h.2.2.1, h.2.2.2.1, h.2.2.2.2⟩
  · have hoperand : mem t16 % 256 < 256 := Nat.mod_lt _ (by norm_num)
    have E : cycle ⟨.Run, (.ADC, .ZeroPageIndirect), 4, a, x, y, p, pc, s8, t8, t16, intr, mem⟩ =
        .ok { state := .Run, ir := (.ADC, .ZeroPageIndirect), tcu := 0,
              a := (a + mem t16 % 256 + (p &&& CPUFlag.Carry)) % 65536 % 256, x := x, y := y,
              p := flag_put (flag_put (flag_put (flag_put p CPUFlag.Zero
                      (((a + mem t16 % 256 + (p &&& CPUFlag.Carry)) % 65536) % 256 == 0))
                    CPUFlag.Negative
                      (((a + mem t16 % 256 + (p &&& CPUFlag.Carry)) % 65536) % 256 &&& 0x80 == 0x80))
                  CPUFlag.Carry
                    (((a + mem t16 % 256 + (p &&& CPUFlag.Carry)) % 65536) &&& 0x100 == 0x100))
                CPUFlag.Overflow
                  (((((a + mem t16 % 256 + (p &&& CPUFlag.Carry)) % 65536) ^^^ a) &&&
                    (((a + mem t16 % 256 + (p &&& CPUFlag.Carry)) % 65536) ^^^ (mem t16 % 256))) &&& 0x80 == 0x80),
              pc := pc, s := s8, temp8 := t8, temp16 := t16, interrupt := intr, mem := mem } := by
      simp [cycle, run_arm, W65C02S.fetch_operand, W65C02S.fetch, W65C02S.read,
        W65C02S.update_zero_flag, W65C02S.update_negative_flag, W65C02S.update_carry_flag,
        W65C02S.update_overflow_flag, hdecb, CPUFlag.Carry, flag_put, CPUFlag.Zero,
        CPUFlag.Negative, CPUFlag.Overflow, not8]
    have hopval : adc_operand ⟨.Run, (.ADC, .ZeroPageIndirect), 4, a, x, y, p, pc, s8, t8, t16, intr, mem⟩ = mem t16 % 256 := by
      simp [adc_operand]
    refine ⟨_, E, ?_⟩
    rw [hopval]
    have h := adc_binary_post a (mem t16 % 256) p ha hoperand hp
    exact ⟨h.1, h.2.1, h.2.2.1, h.2.2.2.1, h.2.2.2.2⟩
  · have hoperand : mem t16 % 256 < 256 := Nat.mod_lt _ (by norm_num)
    have E : cycle ⟨.Run, (.ADC, .ZeroPageIndirectIndexedWithY), 4, a, x, y, p, pc, s8, t8, t16, intr, mem⟩ =
        .ok { state := .Run, ir := (.ADC, .ZeroPageIndirectIndexedWithY), tcu := 0,
              a := (a + mem t16 % 256 + (p &&& CPUFlag.Carry)) % 65536 % 256, x := x, y := y,
              p := flag_put (flag_put (flag_put (flag_put p CPUFlag.Zero
                      (((a + mem t16 % 256 + (p &&& CPUFlag.Carry)) % 65536) % 256 == 0))
                    CPUFlag.Negative
                      (((a + mem t16 % 256 + (p &&& CPUFlag.Carry)) % 65536) % 256 &&& 0x80 == 0x80))
                  CPUFlag.Carry
                    (((a + mem t16 % 256 + (p &&& CPUFlag.Carry)) % 65536) &&& 0x100 == 0x100))
                CPUFlag.Overflow
                  (((((a + mem t16 % 256 + (p &&& CPUFlag.Carry)) % 65536) ^^^ a) &&&
                    (((a + mem t16 % 256 + (p &&& CPUFlag.Carry)) % 65536) ^^^ (mem t16 % 256))) &&& 0x80 == 0x80),
              pc := pc, s := s8, temp8 := t8, temp16 := t16, interrupt := intr, mem := mem } := by
      simp [cycle, run_arm, W65C02S.fetch_operand, W65C02S.fetch, W65C02S.read,
        W65C02S.update_zero_flag, W65C02S.update_negative_flag, W65C02S.update_carry_flag,
        W65C02S.update_overflow_flag, hdecb, CPUFlag.Carry, flag_put, CPUFlag.Zero,
        CPUFlag.Negative, CPUFlag.Overflow, not8]
    have hopval : adc_operand ⟨.Run, (.ADC, .ZeroPageIndirectIndexedWithY), 4, a, x, y, p, pc, s8, t8, t16, intr, mem⟩ = mem t16 % 256 := by
      simp [adc_operand]
    refine ⟨_, E, ?_⟩
    rw [hopval]
    have h := adc_binary_post a (mem t16 % 256) p ha hoperand hp
    exact ⟨h.1, h.2.1, h.2.2.1, h.2.2.2.1, h.2.2.2.2⟩

/-- C1 witness: `ADC #$50` with `A = 0x50` and carry clear yields
`A = 0xA0` and `P = 0xC0` (Negative and Overflow set, Carry and Zero clear),
and the claim theorem applies at that state. -/
theorem C1_adc_binary_witness :
    (cycle c1w).map (fun c => (c.a, c.p)) = .ok (0xA0, 0xC0) ∧
    (∃ c1, cycle c1w = .ok c1 ∧
      (c1.a = (c1w.a + adc_operand c1w + (c1w.p &&& CPUFlag.Carry)) % 256 ∧
      c1.p.testBit 0 = (c1w.a + adc_operand c1w + (c1w.p &&& CPUFlag.Carry)).testBit 8 ∧
      (c1.p.testBit 1 = true ↔ c1.a = 0) ∧
      c1.p.testBit 7 = c1.a.testBit 7 ∧
      (c1.p.testBit 6 = true ↔
        (((c1w.a + adc_operand c1w + (c1w.p &&& CPUFlag.Carry)) ^^^ c1w.a) &&&
          ((c1w.a + adc_operand c1w + (c1w.p &&& CPUFlag.Carry)) ^^^ adc_operand c1w)) &&&
          0x80 ≠ 0))) :=
  ⟨rfl, C1_adc_binary c1w .ImmediateAddressing rfl rfl rfl rfl (by decide) (by decide)⟩

/-- C2 (amended): a decoded NOP variant with parameters `(b, cyc)` advances
`PC` by exactly `b` but consumes `nop_ticks b cyc` clock ticks — one tick for
the `(1,1)` variants, `cyc + 1` ticks for every other variant — rather than
the declared `cyc`. -/
theorem C2_nop_timing (c : W65C02S) (b cyc : Nat)
    (hpair : nop_pair b cyc = true)
    (hst : c.state = .Run) (htcu : c.tcu = 0) (hint : c.interrupt = false)
    (hir : c.ir = (.NOP b cyc, .Implied))
    (hdec : decode (c.mem c.pc % 256) = (.NOP b cyc, .Implied)) :
    ∃ c1, runCycles c (nop_ticks b cyc) = .ok c1 ∧
      c1.pc = (c.pc + b) % 65536 ∧ c1.tcu = 0 ∧ c1.state = .Run := by
  obtain ⟨st, ir, tcu, a, x, y, p, pc, s8, t8, t16, intr, mem⟩ := c
  simp only at hst htcu hint hir hdec hpair
  subst hst
  subst htcu
  subst hint
  subst hir
  rcases b with _|_|_|_|b <;> rcases cyc with _|_|_|_|_|_|_|_|_|cyc <;>
    simp [nop_pair] at hpair
  · refine ⟨_, run_nop_11 a x y p pc s8 t8 t16 mem hdec, ?_, rfl, rfl⟩
    show (pc + 1) % 65536 = (pc + 1) % 65536
    rfl
  · refine ⟨_, run_nop_12 a x y p pc s8 t8 t16 mem hdec, ?_, rfl, rfl⟩
    show (pc + 1) % 65536 = (pc + 1) % 65536
    rfl
  · refine ⟨_, run_nop_22 a x y p pc s8 t8 t16 mem hdec, ?_, rfl, rfl⟩
    show ((pc + 1) % 65536 + 1) % 65536 = (pc + 2) % 65536
    omega
  · refine ⟨_, run_nop_23 a x y p pc s8 t8 t16 mem hdec, ?_, rfl, rfl⟩
    show ((pc + 1) % 65536 + 1) % 65536 = (pc + 2) % 65536
    omega
  · refine ⟨_, run_nop_24 a x y p pc s8 t8 t16 mem hdec, ?_, rfl, rfl⟩
    show ((pc + 1) % 65536 + 1) % 65536 = (pc + 2) % 65536
    omega
  · refine ⟨_, run_nop_34 a x y p pc s8 t8 t16 mem hdec, ?_, rfl, rfl⟩
    show (((pc + 1) % 65536 + 1) % 65536 + 1) % 65536 = (pc + 3) % 65536
    omega
  · refine ⟨_, run_nop_38 a x y p pc s8 t8 t16 mem hdec, ?_, rfl, rfl⟩
    show (((pc + 1) % 65536 + 1) % 65536 + 1) % 65536 = (pc + 3) % 65536
    omega

/-- C2 counterexample: opcode `0xEA` decodes to `NOP 1 2`, yet after its
2 declared cycles the instruction is still in flight (`tcu = 2 ≠ 0`); it
completes only on the third tick. -/
theorem C2_nop_timing_counter :
    (runCycles c2c 2).map (fun c => (c.tcu, c.pc)) = .ok (2, 1) ∧
    (runCycles c2c 3).map (fun c => (c.tcu, c.pc)) = .ok (0, 1) ∧ (2 : Nat) ≠ 0 :=
  ⟨rfl, rfl, by decide⟩

/-- C2 witness: the amended claim applied to the concrete `0xEA` state. -/
theorem C2_nop_timing_witness :
    ∃ c1, runCycles c2c (nop_ticks 1 2) = .ok c1 ∧
      c1.pc = (c2c.pc + 1) % 65536 ∧ c1.tcu = 0 ∧ c1.state = .Run :=
  C2_nop_timing c2c 1 2 rfl rfl rfl rfl rfl rfl

/-- C3 (amended): in the CPU-test harness with entry `0x1234` and `0xEA`
stored there, after 8 ticks `PC = 0x1235` but `TCU = 1` (the opcode fetch has
just happened); `TCU` returns to 0 only after 10 ticks. -/
theorem C3_reset_vector (img : Nat → Nat) (hC : img 0x1234 = 0xEA) :
    (runCycles (cpu_new (systemBusNew img 0x1234)) 8).map (fun c => (c.pc, c.tcu)) =
      .ok (0x1235, 1) ∧
    (runCycles (cpu_new (systemBusNew img 0x1234)) 10).map (fun c => (c.pc, c.tcu)) =
      .ok (0x1235, 0) :=
  c3_trace (systemBusNew img 0x1234) rfl rfl hC

/-- C3 counterexample: on the concrete all-`0xEA` image, after exactly 8
ticks the trace shows `(PC, TCU) = (0x1235, 1)`, not the claimed `TCU = 0`. -/
theorem C3_reset_vector_counter :
    (runCycles (cpu_new (systemBusNew c3_img 0x1234)) 8).map (fun c => (c.pc, c.tcu)) =
      .ok (0x1235, 1) ∧ ((0x1235, 1) : Nat × Nat) ≠ (0x1235, 0) :=
  ⟨rfl, by decide⟩

/-- C3 witness: the amended claim applied to the all-`0xEA` image. -/
theorem C3_reset_vector_witness :
    (runCycles (cpu_new (systemBusNew c3_img 0x1234)) 8).map (fun c => (c.pc, c.tcu)) =
      .ok (0x1235, 1) ∧
    (runCycles (cpu_new (systemBusNew c3_img 0x1234)) 10).map (fun c => (c.pc, c.tcu)) =
      .ok (0x1235, 0) :=
  C3_reset_vector c3_img rfl

/-- C4: the claimed IFR invariant fails in a reachable state: one `cycle()`
after reset both adapters underflow timer 1 and `set_interrupt`
unconditionally sets the summary bit, leaving `IFR = 0xC0` with `IER = 0x00`,
where bit 7 is set but no other set bit is enabled in IER. -/
theorem C4_ifr_summary :
    (mos6522_cycle (mos6522_new 0 0)).map (fun r => (r.1.ifr, r.1.ier, r.2)) =
      some (0xC0, 0x00, false) ∧
    (w65c22_cycle w65c22_new).map (fun w => (w.ifr, w.ier)) = some (0xC0, 0x00) ∧
    ¬ ((0xC0 : Nat).testBit 7 ↔ ∃ i < 7, (0xC0 : Nat).testBit i ∧ (0x00 : Nat).testBit i) := by
  refine ⟨rfl, rfl, ?_⟩
  decide

/-- C5 (amended): the adapter asserts IRQ exactly when `IFR &&& IER ≠ 0`
computed over *all* bits — the summary bit 7 is not excluded — both in
`W65C22::has_interrupt` and in the boolean `MOS6522::cycle` returns. -/
theorem C5_irq_line (w : W65C22) (m m1 : MOS6522) (irq : Bool)
    (hifr : w.ifr < 256)
    (hc : mos6522_cycle m = some (m1, irq)) :
    (has_interrupt w = true ↔ ∃ i < 8, w.ifr.testBit i ∧ w.ier.testBit i) ∧
    (irq = true ↔ m1.ifr &&& m1.ier ≠ 0) := by
  constructor
  · rw [show has_interrupt w = !(w.ifr &&& w.ier == 0) from rfl]
    simp only [Bool.not_eq_true', beq_eq_false_iff_ne]
    exact land_ne_zero_iff w.ifr w.ier hifr
  · unfold mos6522_cycle at hc
    rcases Option.map_eq_some'.mp hc with ⟨m2, _, hpair⟩
    simp only [Prod.mk.injEq] at hpair
    rw [← hpair.2, ← hpair.1]
    simp

/-- C5 counterexample: with `IFR = IER = 0x80` (only the summary bit), the
adapter still asserts IRQ although `(IFR &&& 0x7F) &&& (IER &&& 0x7F) = 0`. -/
theorem C5_irq_line_counter :
    has_interrupt c5_state = true ∧
    (c5_state.ifr &&& 0x7F) &&& (c5_state.ier &&& 0x7F) = 0 :=
  ⟨rfl, rfl⟩

/-- C5 witness: the amended claim applied at the summary-bit-only adapter
state and the post-reset `MOS6522` cycle. -/
theorem C5_irq_line_witness :
    (has_interrupt c5_state = true ↔
      ∃ i < 8, c5_state.ifr.testBit i ∧ c5_state.ier.testBit i) ∧
    (false = true ↔ c4_m1.ifr &&& c4_m1.ier ≠ 0) :=
  C5_irq_line c5_state (mos6522_new 0 0) c4_m1 false (by decide) rfl

/-- C6 (amended): under the configured selectors at most one device matches
any 16-bit address — exactly one iff the address lies in the RAM, adapter or
ROM windows, with the gap `0x4000..0x5FFF` (less the adapter window) matching
none — and read and write routing agree, presenting `addr &&& !mask` to the
selected device. -/
theorem C6_bus_route (a : Nat) (ha : a < 65536) :
    match_count a ≤ 1 ∧
    (match_count a = 1 ↔ a < 0x4000 ∨ (0x6000 ≤ a ∧ a < 0x6010) ∨ 0x8000 ≤ a) ∧
    bus_write_route a = bus_route a ∧
    ((bus_route a).isSome ↔ match_count a = 1) := by
  have hR := char_rom a
  have hM := char_ram a
  have hP := char_per a
  have e1 : (a &&& 0x8000 = 0x8000) ↔ 0x8000 ≤ a := by rw [hR]; omega
  have e2 : (a &&& 0xC000 = 0) ↔ a < 0x4000 := by rw [hM]; omega
  have e3 : (a &&& 0xFFF0 = 0x6000) ↔ (0x6000 ≤ a ∧ a < 0x6010) := by rw [hP]; omega
  simp only [match_count, bus_route, bus_write_route, ROM_SELECTOR, RAM_SELECTOR,
    PER_SELECTOR, not16]
  by_cases H1 : 0x8000 ≤ a <;> by_cases H2 : a < 0x4000 <;>
    by_cases H3 : 0x6000 ≤ a ∧ a < 0x6010
  all_goals (first | (exfalso; omega) | skip)
  all_goals
    (first
      | (have b1 : (a &&& 0x8000 == 0x8000) = true := beq_iff_eq.mpr (e1.mpr H1))
      | (have b1 : (a &&& 0x8000 == 0x8000) = false := by
          rw [beq_eq_false_iff_ne]; exact fun hh => H1 (e1.mp hh)))
  all_goals
    (first
      | (have b2 : (a &&& 0xC000 == 0) = true := beq_iff_eq.mpr (e2.mpr H2))
      | (have b2 : (a &&& 0xC000 == 0) = false := by
          rw [beq_eq_false_iff_ne]; exact fun hh => H2 (e2.mp hh)))
  all_goals
    (first
      | (have b3 : (a &&& 0xFFF0 == 0x6000) = true := beq_iff_eq.mpr (e3.mpr H3))
      | (have b3 : (a &&& 0xFFF0 == 0x6000) = false := by
          rw [beq_eq_false_iff_ne]; exact fun hh => H3 (e3.mp hh)))
  all_goals simp [b1, b2, b3]
  any_goals omega
  all_goals (refine ⟨by omega, ?_⟩; rw [char_mod16 a ha, char_mod14 a (by omega)])

/-- C6 counterexample: address `0x4000` matches no selector, so it is not
true that exactly one device responds at every address. -/
theorem C6_bus_route_counter :
    match_count 0x4000 = 0 ∧ bus_route 0x4000 = none ∧ (0 : Nat) ≠ 1 :=
  ⟨rfl, rfl, by decide⟩

/-- C6 witness: the amended claim applied at the ROM address `0x8123`. -/
theorem C6_bus_route_witness :
    match_count 0x8123 ≤ 1 ∧
    (match_count 0x8123 = 1 ↔
      0x8123 < 0x4000 ∨ (0x6000 ≤ 0x8123 ∧ (0x8123 : Nat) < 0x6010) ∨
        0x8000 ≤ (0x8123 : Nat)) ∧
    bus_write_route 0x8123 = bus_route 0x8123 ∧
    ((bus_route 0x8123).isSome ↔ match_count 0x8123 = 1) :=
  C6_bus_route 0x8123 (by norm_num)

/-- C7: `peek` never mutates observable state: the adapter `peek` returns its
state unchanged at every address, the system-bus `peek` returns its state
unchanged, and reading `T1C_L`/`T1L_L` through `peek` leaves the adapter
intact (no interrupt-flag clear). -/
theorem C7_peek_pure :
    (∀ (m : MOS6522) (a v : Nat) (m1 : MOS6522), mos6522_peek m a = some (v, m1) → m1 = m) ∧
    (∀ (b : SysBus) (a v : Nat) (b1 : SysBus), sys_peek b a = some (v, b1) → b1 = b) ∧
    (∀ m : MOS6522, mos6522_peek m 0x4 = some (m.t1c &&& 0x00ff, m) ∧
        mos6522_peek m 0x6 = some (m.t1l &&& 0x00ff, m)) := by
  have part1 : ∀ (m : MOS6522) (a v : Nat) (m1 : MOS6522),
      mos6522_peek m a = some (v, m1) → m1 = m := by
    intro m a v m1 h
    unfold mos6522_peek at h
    split at h <;> simp_all
  refine ⟨part1, ?_, fun m => ⟨rfl, rfl⟩⟩
  intro b a v b1 h
  unfold sys_peek at h
  split_ifs at h
  · simp only [Option.some.injEq, Prod.mk.injEq] at h
    exact h.2.symm
  · simp only [Option.some.injEq, Prod.mk.injEq] at h
    exact h.2.symm
  · rcases Option.map_eq_some'.mp h with ⟨r, hr, hpair⟩
    have hper : r.2 = b.per := part1 b.per _ r.1 r.2 (by rw [← hr])
    simp only [Prod.mk.injEq] at hpair
    rw [← hpair.2, hper]

/-- C8 (amended): the controller pins are level-triggered, not
edge-triggered: every `write` with the clock pin high shifts again (`n`
consecutive clock-high writes shift by `n`), every `write` with the latch pin
high re-transfers `latch` into `shift` (and re-samples `state` into `latch`),
and `read` always returns `shift &&& 1`. -/
theorem C8_controller_shift (c : SNESController) :
    (∀ n : Nat, ((fun s => snes_write s false true)^[n] c).shift = c.shift >>> n) ∧
    (snes_write c true false).shift = c.latch ∧
    (snes_write (snes_write c true false) true false).shift = c.state ∧
    snes_read c = c.shift &&& 1 := by
  refine ⟨?_, rfl, rfl, rfl⟩
  intro n
  induction n with
  | zero => simp
  | succ k ih =>
      rw [Function.iterate_succ_apply']
      have hs : ∀ s : SNESController, (snes_write s false true).shift = s.shift >>> 1 :=
        fun s => rfl
      rw [hs, ih]
      simp [Nat.shiftRight_succ, Nat.shiftRight_zero]

/-- C8 counterexample: holding the clock pin high across two consecutive
writes shifts twice (`shift` goes `255 → 127 → 63` after pressing button 0),
so a held-high pin does not behave as a single rising edge. -/
theorem C8_controller_shift_counter :
    (snes_write (on_press snes_new 0) false true).shift = 127 ∧
    (snes_write (snes_write (on_press snes_new 0) false true) false true).shift = 63 ∧
    (63 : Nat) ≠ 127 :=
  ⟨rfl, rfl, by decide⟩

/-- C9: with the zero-page pointer byte `temp8 = 0xFF`, the pointer
high-byte fetch of `LDA ($FF)` evaluates the checked 8-bit addition
`temp8 + 1`, which overflows: the run errs with `overflow8` on the very next
tick after `temp8` is loaded. -/
theorem C9_zp_overflow :
    runCycles c9_cpu 11 = .error .overflow8 ∧
    (runCycles c9_cpu 10).map
      (fun c => (c.ir.1 == Instruction.LDA, c.ir.2 == AddressMode.ZeroPageIndirect,
        c.temp8, c.tcu)) = .ok (true, true, 0xFF, 3) :=
  ⟨rfl, rfl⟩

/-- C10: from address counter 0, 40 consecutive Data writes leave the LCD
address counter at exactly 40 (the wrap fires only above 40), so the 41st
write indexes position 40 of the 40-byte line-1 buffer and takes the
out-of-bounds branch (`none` in the embedding); symmetrically for line 2
from DDRAM address `0x40`. -/
theorem C10_lcd_boundary :
    hd_new.line1.length = 40 ∧
    (hd_write_data_n 40 hd_new).map HD44780U.addr = some 40 ∧
    hd_write_data_n 41 hd_new = none ∧
    ((hd_write hd_new .Instruction 0xC0).map HD44780U.addr = some 64) ∧
    ((hd_write hd_new .Instruction 0xC0).bind (hd_write_data_n 40)).map HD44780U.addr =
      some 104 ∧
    (hd_write hd_new .Instruction 0xC0).bind (hd_write_data_n 41) = none :=
  ⟨rfl, rfl, rfl, rfl, rfl, rfl⟩

end Emu
